import Mathlib

/-!
# Control geometry of the Breeze widget style

A shallow embedding of the layout functions of `kstyle/breezestyle.cpp`:

* scroll bar: `Style::scrollBarInternalSubControlRect`, `Style::scrollBarSubControlRect` and
  the `CC_ScrollBar` branch of `Style::hitTestComplexControl`;
* combo box and spin box: `Style::comboBoxSubControlRect`, `Style::spinBoxSubControlRect`,
  `Style::comboBoxSizeFromContents`, `Style::spinBoxSizeFromContents`;
* group box: `Style::groupBoxSubControlRect`;
* tab widget: `Style::tabWidgetTabBarRect`, `Style::tabWidgetCornerRect`,
  `Style::tabWidgetTabPaneRect`, `Style::tabWidgetTabContentsRect`,
  `Style::drawFrameTabWidgetPrimitive`;
* tab bar: `Style::drawTabBarTabShapeControl` and `BreezePrivate::TabBarData`;
* line edit: `Style::lineEditContentsRect`, `Style::lineEditSizeFromContents`;
* dial: `Style::dialAngle`;

and of `ColorTools::getBlackOrWhiteForegroundForHighContrast` of
`libbreezecommon/colortools.cpp`.

Conventions of the embedding.

* Coordinates and range values are C++ `int`s, embedded as `Int` (no overflow is modelled).
* `QRect`, `QPoint` and `QSize` are the Qt value types. A `QRect` is kept the way Qt keeps
  it, by its inclusive corners, so `right = left + width - 1`.
* The two `qreal` expressions of the slider computation are embedded by their exact values:
  the conversion of `space * qreal(pageStep) / (maximum - minimum + pageStep)` to `int`
  truncates toward zero (`Int.tdiv`), and `qRound` of a quotient rounds to the nearest
  integer with ties upward (`Int.fdiv` of the doubled quotient). Where the denominator of
  the first quotient is zero the C++ value is not defined; `Int.tdiv` yields `0` there.
  The angle of `dialAngle` is kept as the exact rational coefficient of `M_PI`.
* Pixel metrics (`Metrics::...`, `scrollBarButtonHeight`) live in a header outside the
  translated sources, they are fields of `Style` and of `Metrics`.
-/

namespace Breeze

/-- Qt point: integer coordinates. -/
structure QPoint where
  x : Int
  y : Int
deriving DecidableEq

/-- Qt rectangle, stored by its inclusive corners `(x1, y1)` and `(x2, y2)` as `QRect` does. -/
structure QRect where
  x1 : Int
  y1 : Int
  x2 : Int
  y2 : Int
deriving DecidableEq

namespace QRect

/-- Default-constructed `QRect()`: the null rectangle `(0, 0, -1, -1)` in corner form. -/
def null : QRect := ⟨0, 0, -1, -1⟩

/-- Constructor `QRect(x, y, width, height)`. -/
def ofXYWH (x y w h : Int) : QRect := ⟨x, y, x + w - 1, y + h - 1⟩

/-- Constructor `QRect(topLeft, bottomRight)`. -/
def ofCorners (topLeft bottomRight : QPoint) : QRect :=
  ⟨topLeft.x, topLeft.y, bottomRight.x, bottomRight.y⟩

/-- Accessor `QRect::x()`. -/
def x (r : QRect) : Int := r.x1

/-- Accessor `QRect::y()`. -/
def y (r : QRect) : Int := r.y1

/-- Accessor `QRect::left()`. -/
def left (r : QRect) : Int := r.x1

/-- Accessor `QRect::top()`. -/
def top (r : QRect) : Int := r.y1

/-- Accessor `QRect::right()`: the last column inside the rectangle. -/
def right (r : QRect) : Int := r.x2

/-- Accessor `QRect::bottom()`: the last row inside the rectangle. -/
def bottom (r : QRect) : Int := r.y2

/-- Accessor `QRect::width()`. -/
def width (r : QRect) : Int := r.x2 - r.x1 + 1

/-- Accessor `QRect::height()`. -/
def height (r : QRect) : Int := r.y2 - r.y1 + 1

/-- Mutator `QRect::moveLeft(pos)`: same size, left edge at `pos`. -/
def moveLeft (r : QRect) (pos : Int) : QRect := ⟨pos, r.y1, r.x2 + (pos - r.x1), r.y2⟩

/-- Predicate `QRect::contains(point)` (non-proper): Qt swaps the edges of an axis whose stored
far edge lies more than one step before the near edge. -/
def contains (r : QRect) (p : QPoint) : Bool :=
  let l := if r.x2 < r.x1 - 1 then r.x2 else r.x1
  let rr := if r.x2 < r.x1 - 1 then r.x1 else r.x2
  if p.x < l ∨ p.x > rr then false
  else
    let t := if r.y2 < r.y1 - 1 then r.y2 else r.y1
    let b := if r.y2 < r.y1 - 1 then r.y1 else r.y2
    if p.y < t ∨ p.y > b then false else true

end QRect

/-- Reading direction, `Qt::LayoutDirection`. -/
inductive LayoutDirection where
  | LeftToRight
  | RightToLeft
deriving DecidableEq

/-- The scroll bar values of `QStyle::SubControl`, the ones the style lays out itself. -/
inductive SubControl where
  | SC_ScrollBarAddLine
  | SC_ScrollBarSubLine
  | SC_ScrollBarAddPage
  | SC_ScrollBarSubPage
  | SC_ScrollBarSlider
  | SC_ScrollBarGroove
deriving DecidableEq

/-- Number of step buttons at one end of a scroll bar. -/
inductive ScrollBarButtonType where
  | NoButton
  | SingleButton
  | DoubleButton
deriving DecidableEq

/-- The fields of `QStyleOptionSlider` the scroll bar geometry reads.
`horizontal` is the flag `state & State_Horizontal`. -/
structure QStyleOptionSlider where
  rect : QRect
  horizontal : Bool
  direction : LayoutDirection
  minimum : Int
  maximum : Int
  sliderPosition : Int
  pageStep : Int
  upsideDown : Bool
deriving DecidableEq

/-- The members of `Style` the scroll bar geometry reads: the two button settings
`_addLineButtons` and `_subLineButtons`, and the pixel metrics of the missing header,
`scrollBarButtonHeight` (button type to button length) and
`Metrics::ScrollBar_MinSliderHeight`. -/
structure Style where
  addLineButtons : ScrollBarButtonType
  subLineButtons : ScrollBarButtonType
  scrollBarButtonHeight : ScrollBarButtonType → Nat
  minSliderHeight : Nat

/-- Modelled from the spec: `mirror(rect, parentRect, direction)` of section 4.1, which the
inline helper `handleRTL` (declared in a header outside the translated sources) applies.
For `RightToLeft` the rectangle keeps its size and moves to
`newX = parentRect.right - (rect.right - parentRect.left)`; otherwise it is returned as is. -/
def mirror (direction : LayoutDirection) (parentRect rect : QRect) : QRect :=
  match direction with
  | .LeftToRight => rect
  | .RightToLeft => rect.moveLeft (parentRect.right - (rect.right - parentRect.left))

/-- Modelled from the spec: `handleRTL(option, rect)`, the mirror of `rect` within
`option->rect` under `option->direction`. -/
def handleRTL (option : QStyleOptionSlider) (subControlRect : QRect) : QRect :=
  mirror option.direction option.rect subControlRect

/-- Value of `qRound(qreal(n) / d)` for integers `n` and `d ≠ 0`: the nearest integer of the
exact quotient, ties upward, `floor (n / d + 1 / 2)`. -/
def qRoundDiv (n d : Int) : Int := Int.fdiv (2 * n + d) (2 * d)

/-- `Style::scrollBarInternalSubControlRect`: the two end buttons. -/
def scrollBarInternalSubControlRect (st : Style) (option : QStyleOptionSlider)
    (subControl : SubControl) : QRect :=
  let r := option.rect
  match subControl with
  | .SC_ScrollBarSubLine =>
    let majorSize : Int := st.scrollBarButtonHeight st.subLineButtons
    if option.horizontal then handleRTL option (QRect.ofXYWH r.x r.y majorSize r.height)
    else handleRTL option (QRect.ofXYWH r.x r.y r.width majorSize)
  | .SC_ScrollBarAddLine =>
    let majorSize : Int := st.scrollBarButtonHeight st.addLineButtons
    if option.horizontal then
      handleRTL option (QRect.ofXYWH (r.right - majorSize) r.y majorSize r.height)
    else handleRTL option (QRect.ofXYWH r.x (r.bottom - majorSize) r.width majorSize)
  | _ => QRect.null

/-- Case `SC_ScrollBarGroove` of `Style::scrollBarSubControlRect`. -/
def scrollBarGrooveRect (st : Style) (option : QStyleOptionSlider) : QRect :=
  let top := handleRTL option (scrollBarInternalSubControlRect st option .SC_ScrollBarSubLine)
  let bot := handleRTL option (scrollBarInternalSubControlRect st option .SC_ScrollBarAddLine)
  let topLeftCorner : QPoint :=
    if option.horizontal then ⟨top.right + 1, top.top⟩ else ⟨top.left, top.bottom + 1⟩
  let botRightCorner : QPoint :=
    if option.horizontal then ⟨bot.left - 1, top.bottom⟩ else ⟨top.right, bot.top - 1⟩
  handleRTL option (QRect.ofCorners topLeftCorner botRightCorner)

/-- Case `SC_ScrollBarSlider` of `Style::scrollBarSubControlRect`. -/
def scrollBarSliderRect (st : Style) (option : QStyleOptionSlider) : QRect :=
  let groove := handleRTL option (scrollBarGrooveRect st option)
  if option.minimum = option.maximum then groove
  else
    let space : Int := if option.horizontal then groove.width else groove.height
    let sliderSize0 : Int :=
      Int.tdiv (space * option.pageStep) (option.maximum - option.minimum + option.pageStep)
    let sliderSize1 : Int := max sliderSize0 (st.minSliderHeight : Int)
    let sliderSize : Int := min sliderSize1 space
    let space1 : Int := space - sliderSize
    if space1 ≤ 0 then groove
    else
      let pos0 : Int :=
        qRoundDiv ((option.sliderPosition - option.minimum) * space1)
          (option.maximum - option.minimum)
      let pos : Int := if option.upsideDown then space1 - pos0 else pos0
      if option.horizontal then
        handleRTL option (QRect.ofXYWH (groove.x + pos) groove.y sliderSize groove.height)
      else handleRTL option (QRect.ofXYWH groove.x (groove.y + pos) groove.width sliderSize)

/-- `Style::scrollBarSubControlRect` on a `QStyleOptionSlider`. -/
def scrollBarSubControlRect (st : Style) (option : QStyleOptionSlider)
    (subControl : SubControl) : QRect :=
  match subControl with
  | .SC_ScrollBarSubLine => scrollBarInternalSubControlRect st option .SC_ScrollBarSubLine
  | .SC_ScrollBarAddLine => scrollBarInternalSubControlRect st option .SC_ScrollBarAddLine
  | .SC_ScrollBarGroove => scrollBarGrooveRect st option
  | .SC_ScrollBarSlider => scrollBarSliderRect st option
  | .SC_ScrollBarSubPage =>
    let slider := handleRTL option (scrollBarSliderRect st option)
    let groove := handleRTL option (scrollBarGrooveRect st option)
    if option.horizontal then
      handleRTL option (QRect.ofXYWH groove.x groove.y (slider.x - groove.x) groove.height)
    else handleRTL option (QRect.ofXYWH groove.x groove.y groove.width (slider.y - groove.y))
  | .SC_ScrollBarAddPage =>
    let slider := handleRTL option (scrollBarSliderRect st option)
    let groove := handleRTL option (scrollBarGrooveRect st option)
    if option.horizontal then
      handleRTL option
        (QRect.ofXYWH (slider.right + 1) groove.y (groove.right - slider.right) groove.height)
    else
      handleRTL option
        (QRect.ofXYWH groove.x (slider.bottom + 1) groove.width (groove.bottom - slider.bottom))

/-- Branch `CC_ScrollBar` of `Style::hitTestComplexControl`. The helpers `preceeds` and
`scrollBarHitTest` are declared in a header outside the translated sources and are taken
as parameters. -/
def hitTestComplexControl (st : Style)
    (preceeds : QPoint → QRect → QStyleOptionSlider → Bool)
    (scrollBarHitTest : QRect → QPoint → QStyleOptionSlider → SubControl)
    (option : QStyleOptionSlider) (point : QPoint) : SubControl :=
  let groove := scrollBarSubControlRect st option .SC_ScrollBarGroove
  if groove.contains point then
    let slider := scrollBarSubControlRect st option .SC_ScrollBarSlider
    if slider.contains point then .SC_ScrollBarSlider
    else if preceeds point slider option then .SC_ScrollBarSubPage
    else .SC_ScrollBarAddPage
  else if preceeds point groove option then
    if st.subLineButtons = .DoubleButton then
      let buttonRect := scrollBarInternalSubControlRect st option .SC_ScrollBarSubLine
      scrollBarHitTest buttonRect point option
    else .SC_ScrollBarSubLine
  else if st.addLineButtons = .DoubleButton then
    let buttonRect := scrollBarInternalSubControlRect st option .SC_ScrollBarAddLine
    scrollBarHitTest buttonRect point option
  else .SC_ScrollBarAddLine

/-- Length of a rectangle along the major axis of the scroll bar. -/
def majorLength (option : QStyleOptionSlider) (r : QRect) : Int :=
  if option.horizontal then r.width else r.height

/-- Origin of a rectangle along the major axis of the scroll bar. -/
def majorOrigin (option : QStyleOptionSlider) (r : QRect) : Int :=
  if option.horizontal then r.x else r.y

/-- A style whose two ends carry one button each, every button `n` pixels long, with the
slider floor `m`. -/
def singleButtonStyle (n m : Nat) : Style :=
  ⟨.SingleButton, .SingleButton, fun _ => n, m⟩

/-- Scenario option: horizontal scroll bar on the track `(0, 0, 200, 20)`. -/
def scenarioOption (direction : LayoutDirection) (minimum maximum sliderPosition pageStep : Int) :
    QStyleOptionSlider :=
  ⟨QRect.ofXYWH 0 0 200 20, true, direction, minimum, maximum, sliderPosition, pageStep, false⟩

/-! ## Combo box, spin box, group box, tab widget and dial

The helpers `insideMargin`, `centerRect`, `expandSize` and `isVerticalTab` are declared in a
header outside the translated sources; they are modelled from section 4.1 of the
specification. `handleRTL(option, rect)` is `mirror option.direction option.rect rect`.
The pixel metrics `Metrics::...` are the fields of `Metrics`. -/

/-- Qt size, `QSize`. -/
structure QSize where
  width : Int
  height : Int
deriving DecidableEq

namespace QSize

/-- Predicate `QSize::isEmpty()`: one of the two dimensions is less than one. -/
def isEmpty (s : QSize) : Bool := decide (s.width < 1 ∨ s.height < 1)

end QSize

namespace QRect

/-- Constructor `QRect(topLeft, size)`. -/
def ofPointSize (topLeft : QPoint) (size : QSize) : QRect :=
  ⟨topLeft.x, topLeft.y, topLeft.x + size.width - 1, topLeft.y + size.height - 1⟩

/-- Accessor `QRect::topLeft()`. -/
def topLeft (r : QRect) : QPoint := ⟨r.x1, r.y1⟩

/-- Mutator `QRect::setLeft(pos)`: only the left edge moves. -/
def setLeft (r : QRect) (pos : Int) : QRect := ⟨pos, r.y1, r.x2, r.y2⟩

/-- Mutator `QRect::setRight(pos)`: only the right edge moves. -/
def setRight (r : QRect) (pos : Int) : QRect := ⟨r.x1, r.y1, pos, r.y2⟩

/-- Mutator `QRect::setWidth(w)`: the left edge stays. -/
def setWidth (r : QRect) (w : Int) : QRect := ⟨r.x1, r.y1, r.x1 + w - 1, r.y2⟩

/-- Mutator `QRect::setHeight(h)`: the top edge stays. -/
def setHeight (r : QRect) (h : Int) : QRect := ⟨r.x1, r.y1, r.x2, r.y1 + h - 1⟩

/-- Mutator `QRect::moveTop(pos)`: same size, top edge at `pos`. -/
def moveTop (r : QRect) (pos : Int) : QRect := ⟨r.x1, pos, r.x2, r.y2 + (pos - r.y1)⟩

/-- Mutator `QRect::moveBottom(pos)`: same size, bottom edge at `pos`. -/
def moveBottom (r : QRect) (pos : Int) : QRect := ⟨r.x1, r.y1 + (pos - r.y2), r.x2, pos⟩

/-- Mutator `QRect::moveRight(pos)`: same size, right edge at `pos`. -/
def moveRight (r : QRect) (pos : Int) : QRect := ⟨r.x1 + (pos - r.x2), r.y1, pos, r.y2⟩

/-- Mutator `QRect::translate(dx, dy)`. -/
def translate (r : QRect) (dx dy : Int) : QRect := ⟨r.x1 + dx, r.y1 + dy, r.x2 + dx, r.y2 + dy⟩

/-- Mutator `QRect::adjust(dx1, dy1, dx2, dy2)`: the offsets are added to the four edges. -/
def adjust (r : QRect) (dx1 dy1 dx2 dy2 : Int) : QRect :=
  ⟨r.x1 + dx1, r.y1 + dy1, r.x2 + dx2, r.y2 + dy2⟩

end QRect

/-- The pixel metrics `Metrics::...` read by the layout functions below. -/
structure Metrics where
  Frame_FrameWidth : Nat
  LineEdit_MarginWidth : Nat
  ComboBox_MarginWidth : Nat
  ComboBox_BoxTextSpace : Nat
  ComboBox_ArrowButtonWidth : Nat
  SpinBox_ArrowButtonWidth : Nat
  CheckBox_Size : Nat
  CheckBox_BoxTextSpace : Nat
  GroupBox_TitleMarginWidth : Nat
  TabWidget_MarginWidth : Nat
  TabBar_BaseOverlap : Nat
  TabBar_TabRadius : Nat

/-- Modelled from the spec: `insideMargin(rect, dx, dy)` of section 4.1, declared in a header
outside the translated sources. The rect is shrunk symmetrically by `dx` horizontally and by
`dy` vertically; where the margins exceed half the dimension the size is clamped to zero,
never negative. The one-margin form `insideMargin(rect, d)` is `insideMargin rect d d`. -/
def insideMargin (r : QRect) (dx dy : Int) : QRect :=
  QRect.ofXYWH (r.left + dx) (r.top + dy) (max 0 (r.width - 2 * dx)) (max 0 (r.height - 2 * dy))

/-- Modelled from the spec: `centerRect(rect, width, height)` of section 4.1, declared in a
header outside the translated sources. The rect of the given size centered within `rect`,
the integer division of the C++ source truncating. -/
def centerRect (r : QRect) (width height : Int) : QRect :=
  QRect.ofXYWH (r.left + Int.tdiv (r.width - width) 2) (r.top + Int.tdiv (r.height - height) 2)
    width height

/-- Modelled from the spec: `expandSize(size, dx, dy)` of section 4.1, declared in a header
outside the translated sources. The size grown by the margins, `dx` on the left and on the
right and `dy` above and below, the dual of `insideMargin`. The one-margin form
`expandSize(size, d)` is `expandSize size d d`. -/
def expandSize (s : QSize) (dx dy : Int) : QSize := ⟨s.width + 2 * dx, s.height + 2 * dy⟩

/-- Tab bar placement, `QTabBar::Shape`. -/
inductive TabShape where
  | RoundedNorth
  | RoundedSouth
  | RoundedWest
  | RoundedEast
  | TriangularNorth
  | TriangularSouth
  | TriangularWest
  | TriangularEast
deriving DecidableEq

/-- Modelled from the spec: `isVerticalTab(shape)`, declared in a header outside the translated
sources: the vertical tab placements are West and East. -/
def isVerticalTab (shape : TabShape) : Bool :=
  match shape with
  | .RoundedWest | .RoundedEast | .TriangularWest | .TriangularEast => true
  | _ => false

/-- The combo box values of `QStyle::SubControl`. -/
inductive ComboBoxSubControl where
  | SC_ComboBoxFrame
  | SC_ComboBoxEditField
  | SC_ComboBoxArrow
  | SC_ComboBoxListBoxPopup
deriving DecidableEq

/-- The spin box values of `QStyle::SubControl`. -/
inductive SpinBoxSubControl where
  | SC_SpinBoxUp
  | SC_SpinBoxDown
  | SC_SpinBoxFrame
  | SC_SpinBoxEditField
deriving DecidableEq

/-- The group box values of `QStyle::SubControl`. -/
inductive GroupBoxSubControl where
  | SC_GroupBoxCheckBox
  | SC_GroupBoxLabel
  | SC_GroupBoxContents
  | SC_GroupBoxFrame
deriving DecidableEq

/-- The two corner values of `QStyle::SubElement` handled by `tabWidgetCornerRect`. -/
inductive CornerElement where
  | SE_TabWidgetLeftCorner
  | SE_TabWidgetRightCorner
deriving DecidableEq

/-- The fields of `QStyleOptionComboBox` the geometry reads. -/
structure QStyleOptionComboBox where
  rect : QRect
  direction : LayoutDirection
  editable : Bool
  frame : Bool
deriving DecidableEq

/-- The fields of `QStyleOptionSpinBox` the geometry reads. -/
structure QStyleOptionSpinBox where
  rect : QRect
  direction : LayoutDirection
  frame : Bool
deriving DecidableEq

/-- The fields of `QStyleOptionGroupBox` the geometry reads. `checkable` is the flag
`subControls & SC_GroupBoxCheckBox`, `emptyText` is `text.isEmpty()`, `fontHeight` is
`fontMetrics.height()` and `textWidth` is the width of
`fontMetrics.size(_mnemonics->textFlags(), text)`, both pixel counts. -/
structure QStyleOptionGroupBox where
  rect : QRect
  direction : LayoutDirection
  checkable : Bool
  emptyText : Bool
  fontHeight : Nat
  textWidth : Nat
deriving DecidableEq

/-- The fields of `QStyleOptionTabWidgetFrame` the geometry reads. -/
structure QStyleOptionTabWidgetFrame where
  rect : QRect
  direction : LayoutDirection
  shape : TabShape
  tabBarSize : QSize
  leftCornerWidgetSize : QSize
  rightCornerWidgetSize : QSize
  lineWidth : Int
deriving DecidableEq

/-- `Style::comboBoxSubControlRect` on a `QStyleOptionComboBox`. -/
def comboBoxSubControlRect (m : Metrics) (option : QStyleOptionComboBox)
    (subControl : ComboBoxSubControl) : QRect :=
  let editable := option.editable
  let flat := editable && !option.frame
  let rect := option.rect
  match subControl with
  | .SC_ComboBoxFrame => if flat then rect else QRect.null
  | .SC_ComboBoxListBoxPopup => rect
  | .SC_ComboBoxArrow =>
    let rect := if !flat then insideMargin rect m.Frame_FrameWidth m.Frame_FrameWidth else rect
    let arrowRect :=
      if editable then
        QRect.ofXYWH (rect.right - m.ComboBox_ArrowButtonWidth) rect.top
          m.ComboBox_ArrowButtonWidth rect.height
      else
        QRect.ofXYWH (rect.right - m.ComboBox_ArrowButtonWidth) rect.top
          m.ComboBox_ArrowButtonWidth rect.height
    let arrowRect := centerRect arrowRect m.ComboBox_ArrowButtonWidth m.ComboBox_ArrowButtonWidth
    mirror option.direction option.rect arrowRect
  | .SC_ComboBoxEditField =>
    let rect := if !flat then insideMargin rect m.Frame_FrameWidth m.Frame_FrameWidth else rect
    let labelRect :=
      if editable then
        let labelRect :=
          QRect.ofXYWH rect.left rect.top (rect.width - m.ComboBox_ArrowButtonWidth) rect.height
        if !flat then
          labelRect.adjust m.LineEdit_MarginWidth m.LineEdit_MarginWidth 0
            (-(m.LineEdit_MarginWidth : Int))
        else labelRect
      else
        let labelRect :=
          QRect.ofXYWH rect.left rect.top
            (rect.width - m.ComboBox_ArrowButtonWidth - m.ComboBox_BoxTextSpace) rect.height
        labelRect.adjust m.ComboBox_MarginWidth m.ComboBox_MarginWidth 0
          (-(m.ComboBox_MarginWidth : Int))
    mirror option.direction option.rect labelRect

/-- `Style::spinBoxSubControlRect` on a `QStyleOptionSpinBox`. -/
def spinBoxSubControlRect (m : Metrics) (option : QStyleOptionSpinBox)
    (subControl : SpinBoxSubControl) : QRect :=
  let flat := !option.frame
  let rect := option.rect
  match subControl with
  | .SC_SpinBoxFrame => if flat then QRect.null else rect
  | .SC_SpinBoxUp | .SC_SpinBoxDown =>
    let rect := if !flat then insideMargin rect m.Frame_FrameWidth m.Frame_FrameWidth else rect
    let arrowRect :=
      QRect.ofXYWH (rect.right - m.SpinBox_ArrowButtonWidth) rect.top
        m.SpinBox_ArrowButtonWidth rect.height
    let arrowRect := centerRect arrowRect m.SpinBox_ArrowButtonWidth m.SpinBox_ArrowButtonWidth
    let arrowRect := arrowRect.setHeight ((m.SpinBox_ArrowButtonWidth / 2 : Nat) : Int)
    let arrowRect :=
      if subControl = .SC_SpinBoxDown then
        arrowRect.translate 0 ((m.SpinBox_ArrowButtonWidth / 2 : Nat) : Int)
      else arrowRect
    mirror option.direction option.rect arrowRect
  | .SC_SpinBoxEditField =>
    let rect := if !flat then insideMargin rect m.Frame_FrameWidth m.Frame_FrameWidth else rect
    let labelRect :=
      QRect.ofXYWH rect.left rect.top (rect.width - m.SpinBox_ArrowButtonWidth) rect.height
    let labelRect :=
      if !flat then
        labelRect.adjust m.LineEdit_MarginWidth m.LineEdit_MarginWidth 0
          (-(m.LineEdit_MarginWidth : Int))
      else labelRect
    mirror option.direction option.rect labelRect

/-- `Style::comboBoxSizeFromContents` on a `QStyleOptionComboBox`. -/
def comboBoxSizeFromContents (m : Metrics) (option : QStyleOptionComboBox)
    (contentsSize : QSize) : QSize :=
  let editable := option.editable
  let flat := editable && !option.frame
  let size := contentsSize
  let size :=
    if editable && !flat then expandSize size m.LineEdit_MarginWidth m.LineEdit_MarginWidth
    else if !editable then expandSize size m.ComboBox_MarginWidth m.ComboBox_MarginWidth
    else size
  let size : QSize := ⟨size.width, max size.height (m.ComboBox_ArrowButtonWidth : Int)⟩
  let size : QSize := ⟨size.width + m.ComboBox_ArrowButtonWidth, size.height⟩
  let size : QSize :=
    if !editable then ⟨size.width + m.ComboBox_BoxTextSpace, size.height⟩ else size
  if flat then size else expandSize size m.Frame_FrameWidth m.Frame_FrameWidth

/-- `Style::spinBoxSizeFromContents` on a `QStyleOptionSpinBox`. -/
def spinBoxSizeFromContents (m : Metrics) (option : QStyleOptionSpinBox)
    (contentsSize : QSize) : QSize :=
  let flat := !option.frame
  let size := contentsSize
  let size :=
    if !flat then expandSize size m.LineEdit_MarginWidth m.LineEdit_MarginWidth else size
  let size : QSize := ⟨size.width, max size.height (m.SpinBox_ArrowButtonWidth : Int)⟩
  let size : QSize := ⟨size.width + m.SpinBox_ArrowButtonWidth, size.height⟩
  if flat then size else expandSize size m.Frame_FrameWidth m.Frame_FrameWidth

/-- Title height of `Style::groupBoxSubControlRect`, case `SC_GroupBoxContents`: the local
`titleHeight` at the point where the rect is adjusted. -/
def groupBoxContentsTitleHeight (m : Metrics) (option : QStyleOptionGroupBox) : Int :=
  let titleHeight : Int := 0
  let titleHeight : Int := if !option.emptyText then option.fontHeight else titleHeight
  let titleHeight : Int :=
    if option.checkable then max titleHeight (m.CheckBox_Size : Int) else titleHeight
  if titleHeight > 0 then titleHeight + 2 * m.GroupBox_TitleMarginWidth else titleHeight

/-- Title width of `Style::groupBoxSubControlRect`, cases `SC_GroupBoxCheckBox` and
`SC_GroupBoxLabel`: the local `titleWidth` after the text and check box contributions. -/
def groupBoxTitleWidth (m : Metrics) (option : QStyleOptionGroupBox) : Int :=
  let titleWidth : Int := 0
  let titleWidth : Int :=
    if !option.emptyText then titleWidth + option.textWidth else titleWidth
  let titleWidth : Int := if option.checkable then titleWidth + m.CheckBox_Size else titleWidth
  if option.checkable && !option.emptyText then titleWidth + m.CheckBox_BoxTextSpace
  else titleWidth

/-- Title rect of `Style::groupBoxSubControlRect`, cases `SC_GroupBoxCheckBox` and
`SC_GroupBoxLabel`: the local `titleRect` after the statement marked `// center`. -/
def groupBoxTitleRect (m : Metrics) (option : QStyleOptionGroupBox) : QRect :=
  let rect := insideMargin option.rect m.Frame_FrameWidth m.Frame_FrameWidth
  let titleHeight : Int := 0
  let titleHeight : Int :=
    if !option.emptyText then max titleHeight option.fontHeight else titleHeight
  let titleHeight : Int :=
    if option.checkable then max titleHeight (m.CheckBox_Size : Int) else titleHeight
  let titleRect := rect
  let titleRect := titleRect.setHeight titleHeight
  let titleRect := titleRect.translate 0 m.GroupBox_TitleMarginWidth
  centerRect titleRect (groupBoxTitleWidth m option) titleHeight

/-- `Style::groupBoxSubControlRect` on a `QStyleOptionGroupBox`. `visualRect` is the mirror
of Qt, here within the title rect. -/
def groupBoxSubControlRect (m : Metrics) (option : QStyleOptionGroupBox)
    (subControl : GroupBoxSubControl) : QRect :=
  let rect := option.rect
  match subControl with
  | .SC_GroupBoxFrame => rect
  | .SC_GroupBoxContents =>
    let rect := insideMargin rect m.Frame_FrameWidth m.Frame_FrameWidth
    rect.adjust 0 (groupBoxContentsTitleHeight m option) 0 0
  | .SC_GroupBoxCheckBox =>
    let titleWidth := groupBoxTitleWidth m option
    let titleRect := groupBoxTitleRect m option
    let titleRect := centerRect titleRect titleWidth m.CheckBox_Size
    let subRect := QRect.ofPointSize titleRect.topLeft ⟨m.CheckBox_Size, titleRect.height⟩
    mirror option.direction titleRect subRect
  | .SC_GroupBoxLabel =>
    let titleWidth := groupBoxTitleWidth m option
    let titleRect := groupBoxTitleRect m option
    let titleRect := centerRect titleRect titleWidth option.fontHeight
    let subRect := titleRect
    let subRect :=
      if option.checkable then
        subRect.adjust ((m.CheckBox_Size : Int) + m.CheckBox_BoxTextSpace) 0 0 0
      else subRect
    mirror option.direction titleRect subRect

/-- `Style::tabWidgetCornerRect` on a `QStyleOptionTabWidgetFrame`. -/
def tabWidgetCornerRect (element : CornerElement) (option : QStyleOptionTabWidgetFrame) : QRect :=
  let tabBarSize := option.tabBarSize
  if tabBarSize.isEmpty then QRect.null
  else if isVerticalTab option.shape then QRect.null
  else
    let rect := option.rect
    let cornerRect := QRect.ofPointSize ⟨0, 0⟩ ⟨tabBarSize.height, tabBarSize.height + 1⟩
    let cornerRect :=
      if element = .SE_TabWidgetRightCorner then cornerRect.moveRight rect.right
      else cornerRect.moveLeft rect.left
    let cornerRect :=
      match option.shape with
      | .RoundedNorth | .TriangularNorth => cornerRect.moveTop rect.top
      | .RoundedSouth | .TriangularSouth => cornerRect.moveBottom rect.bottom
      | _ => cornerRect
    mirror option.direction option.rect cornerRect

/-- `Style::tabWidgetTabBarRect` on a `QStyleOptionTabWidgetFrame`; `subElementRect` of a
corner element is `tabWidgetCornerRect`. -/
def tabWidgetTabBarRect (option : QStyleOptionTabWidgetFrame) : QRect :=
  let tabBarSize := option.tabBarSize
  if tabBarSize.isEmpty then option.rect
  else
    let rect := option.rect
    let tabBarRect := QRect.ofPointSize ⟨0, 0⟩ tabBarSize
    let verticalTabs := isVerticalTab option.shape
    let rect : QRect :=
      if verticalTabs then rect
      else
        let rect :=
          if !option.leftCornerWidgetSize.isEmpty then
            rect.setLeft ((tabWidgetCornerRect .SE_TabWidgetLeftCorner option).width - 1)
          else rect
        if !option.rightCornerWidgetSize.isEmpty then
          rect.setRight (tabWidgetCornerRect .SE_TabWidgetRightCorner option).left
        else rect
    let tabBarRect : QRect :=
      if verticalTabs then
        let tabBarRect := tabBarRect.setHeight (min tabBarRect.height (rect.height - 2))
        tabBarRect.moveTop (rect.top + Int.tdiv (rect.height - tabBarRect.height) 2)
      else
        let tabBarRect := tabBarRect.setWidth (min tabBarRect.width (rect.width - 2))
        tabBarRect.moveLeft (rect.left + Int.tdiv (rect.width - tabBarRect.width) 2)
    match option.shape with
    | .RoundedNorth | .TriangularNorth => tabBarRect.moveTop (rect.top + 1)
    | .RoundedSouth | .TriangularSouth => tabBarRect.moveBottom (rect.bottom - 1)
    | .RoundedWest | .TriangularWest => tabBarRect.moveLeft (rect.left + 1)
    | .RoundedEast | .TriangularEast => tabBarRect.moveRight (rect.right - 1)

/-- `Style::dialAngle`, as the rational coefficient of `M_PI` in the returned angle: the
`qreal` expressions are embedded by their exact values, so the angle is this coefficient
times pi. The field `sliderOption->dialWrapping` is the argument `dialWrapping`. -/
def dialAngleOverPi (sliderOption : QStyleOptionSlider) (dialWrapping : Bool) (value : Int) : ℚ :=
  if sliderOption.maximum = sliderOption.minimum then 1 / 2
  else
    let fraction : ℚ :=
      ((value - sliderOption.minimum : Int) : ℚ)
        / ((sliderOption.maximum - sliderOption.minimum : Int) : ℚ)
    let fraction : ℚ := if !sliderOption.upsideDown then 1 - fraction else fraction
    if dialWrapping then 3 / 2 - fraction * 2 else (8 - fraction * 10) / 6

/-- Scenario metrics: frame width 1, title margin 4, check box 16 px; the remaining values are
small positive pixel counts. -/
def scenarioMetrics : Metrics :=
  { Frame_FrameWidth := 1, LineEdit_MarginWidth := 3, ComboBox_MarginWidth := 4,
    ComboBox_BoxTextSpace := 4, ComboBox_ArrowButtonWidth := 20, SpinBox_ArrowButtonWidth := 20,
    CheckBox_Size := 16, CheckBox_BoxTextSpace := 8, GroupBox_TitleMarginWidth := 4,
    TabWidget_MarginWidth := 4, TabBar_BaseOverlap := 2, TabBar_TabRadius := 3 }

/-! ## Tab widget pane and frame, tab shape, line edit and contrast colour

`Helper::Corners` is declared in a header outside the translated sources; it is modelled as
the set of the four corners of a frame. -/

/-- `Style::tabWidgetTabPaneRect` on a `QStyleOptionTabWidgetFrame`. -/
def tabWidgetTabPaneRect (m : Metrics) (option : QStyleOptionTabWidgetFrame) : QRect :=
  if option.tabBarSize.isEmpty then option.rect
  else
    let overlap : Int := (m.TabBar_BaseOverlap : Int) - 1
    let tabBarSize : QSize :=
      ⟨option.tabBarSize.width - overlap, option.tabBarSize.height - overlap⟩
    let rect := option.rect
    match option.shape with
    | .RoundedNorth | .TriangularNorth => rect.adjust 0 tabBarSize.height 0 0
    | .RoundedSouth | .TriangularSouth => rect.adjust 0 0 0 (-tabBarSize.height)
    | .RoundedWest | .TriangularWest => rect.adjust tabBarSize.width 0 0 0
    | .RoundedEast | .TriangularEast => rect.adjust 0 0 (-tabBarSize.width) 0

/-- `Style::tabWidgetTabContentsRect` on a `QStyleOptionTabWidgetFrame`. -/
def tabWidgetTabContentsRect (m : Metrics) (option : QStyleOptionTabWidgetFrame) : QRect :=
  if option.tabBarSize.isEmpty then option.rect
  else
    let rect := tabWidgetTabPaneRect m option
    let documentMode := decide (option.lineWidth = 0)
    if documentMode then
      match option.shape with
      | .RoundedNorth | .TriangularNorth => rect.adjust 0 m.TabWidget_MarginWidth 0 0
      | .RoundedSouth | .TriangularSouth => rect.adjust 0 0 0 (-(m.TabWidget_MarginWidth : Int))
      | .RoundedWest | .TriangularWest => rect.adjust m.TabWidget_MarginWidth 0 0 0
      | .RoundedEast | .TriangularEast => rect.adjust 0 0 (-(m.TabWidget_MarginWidth : Int)) 0
    else insideMargin rect m.TabWidget_MarginWidth m.TabWidget_MarginWidth

/-- Modelled from the spec: the flag set `Helper::Corners`, declared in a header outside the
translated sources: which of the four corners of a frame are rounded. -/
structure Corners where
  topLeft : Bool
  topRight : Bool
  bottomLeft : Bool
  bottomRight : Bool
deriving DecidableEq

namespace Corners

/-- Default-constructed flags: no corner. -/
def none : Corners := ⟨false, false, false, false⟩

/-- Flag `Helper::CornerTopLeft`. -/
def CornerTopLeft : Corners := ⟨true, false, false, false⟩

/-- Flag `Helper::CornerTopRight`. -/
def CornerTopRight : Corners := ⟨false, true, false, false⟩

/-- Flag `Helper::CornerBottomLeft`. -/
def CornerBottomLeft : Corners := ⟨false, false, true, false⟩

/-- Flag `Helper::CornerBottomRight`. -/
def CornerBottomRight : Corners := ⟨false, false, false, true⟩

/-- Flags `Helper::CornersTop`: the two top corners. -/
def CornersTop : Corners := ⟨true, true, false, false⟩

/-- Flags `Helper::CornersBottom`: the two bottom corners. -/
def CornersBottom : Corners := ⟨false, false, true, true⟩

/-- Flags `Helper::CornersLeft`: the two left corners. -/
def CornersLeft : Corners := ⟨true, false, true, false⟩

/-- Flags `Helper::CornersRight`: the two right corners. -/
def CornersRight : Corners := ⟨false, true, false, true⟩

/-- Flags `Helper::CornersAll`: the four corners. -/
def CornersAll : Corners := ⟨true, true, true, true⟩

/-- Flag union, the operator `|`. -/
def union (a b : Corners) : Corners :=
  ⟨a.topLeft || b.topLeft, a.topRight || b.topRight, a.bottomLeft || b.bottomLeft,
    a.bottomRight || b.bottomRight⟩

/-- Flag removal, the update `a &= ~b`. -/
def remove (a b : Corners) : Corners :=
  ⟨a.topLeft && !b.topLeft, a.topRight && !b.topRight, a.bottomLeft && !b.bottomLeft,
    a.bottomRight && !b.bottomRight⟩

end Corners

/-- `Style::drawFrameTabWidgetPrimitive`: the corner set handed to `renderTabWidgetFrame`
together with the rect, or nothing when the tab bar is hidden and no frame is rendered. -/
def drawFrameTabWidgetPrimitive (m : Metrics) (option : QStyleOptionTabWidgetFrame) :
    Option (QRect × Corners) :=
  if option.tabBarSize.isEmpty then Option.none
  else
    let rect := option.rect
    let tabBarSize := option.tabBarSize
    let corners := Corners.CornersAll
    let corners :=
      match option.shape with
      | .RoundedNorth | .TriangularNorth =>
        if tabBarSize.width ≥ rect.width - 2 * m.TabBar_TabRadius then
          corners.remove Corners.CornersTop
        else corners
      | .RoundedSouth | .TriangularSouth =>
        if tabBarSize.width ≥ rect.width - 2 * m.TabBar_TabRadius then
          corners.remove Corners.CornersBottom
        else corners
      | .RoundedWest | .TriangularWest =>
        if tabBarSize.height ≥ rect.height - 2 * m.TabBar_TabRadius then
          corners.remove Corners.CornersLeft
        else corners
      | .RoundedEast | .TriangularEast =>
        if tabBarSize.height ≥ rect.height - 2 * m.TabBar_TabRadius then
          corners.remove Corners.CornersRight
        else corners
    some (rect, corners)

/-- Identity of a widget, the target of a non-null `QWidget` pointer. -/
abbrev Widget := Nat

/-- State of `BreezePrivate::TabBarData`: the guarded pointer `_tabBar`, null or a widget. -/
structure TabBarData where
  tabBar : Option Widget
deriving DecidableEq

namespace TabBarData

/-- State after construction: the pointer is null. -/
def init : TabBarData := ⟨Option.none⟩

/-- Method `TabBarData::lock(widget)`. -/
def lock (_d : TabBarData) (widget : Option Widget) : TabBarData := ⟨widget⟩

/-- Method `TabBarData::isLocked(widget)`: `_tabBar && _tabBar.data() == widget`. -/
def isLocked (d : TabBarData) (widget : Option Widget) : Bool :=
  d.tabBar.isSome && decide (d.tabBar = widget)

/-- Method `TabBarData::release()`. -/
def release (_d : TabBarData) : TabBarData := ⟨Option.none⟩

end TabBarData

/-- One call on a `TabBarData`: `lock(widget)` or `release()`. -/
inductive TabBarOp where
  | lock (widget : Option Widget)
  | release
deriving DecidableEq

/-- Effect of one call on the lock state. -/
def TabBarOp.apply (d : TabBarData) (op : TabBarOp) : TabBarData :=
  match op with
  | .lock widget => d.lock widget
  | .release => d.release

/-- Lock state after a sequence of calls on a freshly constructed `TabBarData`. -/
def tabBarDataAfter (ops : List TabBarOp) : TabBarData :=
  ops.foldl TabBarOp.apply TabBarData.init

/-- Position of a tab in its bar, `QStyleOptionTab::TabPosition`. -/
inductive TabPosition where
  | Beginning
  | Middle
  | End
  | OnlyOneTab
deriving DecidableEq

/-- Position of the selected tab relative to a tab, `QStyleOptionTab::SelectedPosition`. -/
inductive SelectedPosition where
  | NotAdjacent
  | NextIsSelected
  | PreviousIsSelected
deriving DecidableEq

/-- The fields of `QStyleOptionTab` the tab shape reads. `selected` is the flag
`state & State_Selected`. -/
structure QStyleOptionTab where
  rect : QRect
  direction : LayoutDirection
  shape : TabShape
  position : TabPosition
  selectedPosition : SelectedPosition
  selected : Bool
deriving DecidableEq

/-- `Style::drawTabBarTabShapeControl`: the new lock state, and the rect and corner set handed
to `renderTabBarTab`. `widget` is the widget pointer (null or a widget), `otherDevice` is the
test `painter->device() != widget`, `tabOverlap` is `Metrics::TabBar_TabOverlap`. -/
def drawTabBarTabShapeControl (m : Metrics) (tabOverlap : Nat) (tabBarData : TabBarData)
    (widget : Option Widget) (otherDevice : Bool) (option : QStyleOptionTab) :
    TabBarData × QRect × Corners :=
  let selected := option.selected
  let isDragged := widget.isSome && selected && otherDevice
  let isLocked := widget.isSome && tabBarData.isLocked widget
  let rect := option.rect
  let tabBarData :=
    if selected && widget.isSome && isDragged then tabBarData.lock widget
    else if widget.isSome && selected && tabBarData.isLocked widget then tabBarData.release
    else tabBarData
  let position := option.position
  let isSingle := decide (position = .OnlyOneTab)
  let isFirst := isSingle || decide (position = .Beginning)
  let isLast := isSingle || decide (position = .End)
  let isLeftOfSelected := !isLocked && decide (option.selectedPosition = .NextIsSelected)
  let isRightOfSelected := !isLocked && decide (option.selectedPosition = .PreviousIsSelected)
  let isFirst := isFirst && !isRightOfSelected
  let isLast := isLast && !isLeftOfSelected
  let reverseLayout := decide (option.direction = .RightToLeft)
  let verticalTabs := isVerticalTab option.shape
  let swap := reverseLayout && !verticalTabs
  let isFirst1 := if swap then isLast else isFirst
  let isLast1 := if swap then isFirst else isLast
  let isLeftOfSelected1 := if swap then isRightOfSelected else isLeftOfSelected
  let isRightOfSelected1 := if swap then isLeftOfSelected else isRightOfSelected
  let isFirst := isFirst1
  let isLast := isLast1
  let isLeftOfSelected := isLeftOfSelected1
  let isRightOfSelected := isRightOfSelected1
  let corners := Corners.none
  let radius : Int := m.TabBar_TabRadius
  let overlap : Int := tabOverlap
  match option.shape with
  | .RoundedNorth | .TriangularNorth =>
    if selected then
      (tabBarData, rect.adjust 0 0 0 radius,
        Corners.union Corners.CornerTopLeft Corners.CornerTopRight)
    else
      let rect := rect.adjust 0 0 0 (-1)
      let corners := if isFirst then corners.union Corners.CornerTopLeft else corners
      let corners := if isLast then corners.union Corners.CornerTopRight else corners
      let rect := if isRightOfSelected then rect.adjust (-radius) 0 0 0 else rect
      let rect :=
        if isLeftOfSelected then rect.adjust 0 0 overlap 0
        else if !isLast then rect.adjust 0 0 overlap 0
        else rect
      (tabBarData, rect, corners)
  | .RoundedSouth | .TriangularSouth =>
    if selected then
      (tabBarData, rect.adjust 0 (-radius) 0 0,
        Corners.union Corners.CornerBottomLeft Corners.CornerBottomRight)
    else
      let rect := rect.adjust 0 1 0 0
      let corners := if isFirst then corners.union Corners.CornerBottomLeft else corners
      let corners := if isLast then corners.union Corners.CornerBottomRight else corners
      let rect := if isRightOfSelected then rect.adjust (-radius) 0 0 0 else rect
      let rect :=
        if isLeftOfSelected then rect.adjust 0 0 overlap 0
        else if !isLast then rect.adjust 0 0 overlap 0
        else rect
      (tabBarData, rect, corners)
  | .RoundedWest | .TriangularWest =>
    if selected then
      (tabBarData, rect.adjust 0 0 radius 0,
        Corners.union Corners.CornerTopLeft Corners.CornerBottomLeft)
    else
      let rect := rect.adjust 0 0 (-1) 0
      let corners := if isFirst then corners.union Corners.CornerTopLeft else corners
      let corners := if isLast then corners.union Corners.CornerBottomLeft else corners
      let rect := if isRightOfSelected then rect.adjust 0 (-radius) 0 0 else rect
      let rect :=
        if isLeftOfSelected then rect.adjust 0 0 0 radius
        else if !isLast then rect.adjust 0 0 0 overlap
        else rect
      (tabBarData, rect, corners)
  | .RoundedEast | .TriangularEast =>
    if selected then
      (tabBarData, rect.adjust (-radius) 0 0 0,
        Corners.union Corners.CornerTopRight Corners.CornerBottomRight)
    else
      let rect := rect.adjust 1 0 0 0
      let corners := if isFirst then corners.union Corners.CornerTopRight else corners
      let corners := if isLast then corners.union Corners.CornerBottomRight else corners
      let rect := if isRightOfSelected then rect.adjust 0 (-radius) 0 0 else rect
      let rect :=
        if isLeftOfSelected then rect.adjust 0 0 0 radius
        else if !isLast then rect.adjust 0 0 0 overlap
        else rect
      (tabBarData, rect, corners)

/-- The fields of `QStyleOptionFrame` the line edit geometry reads. -/
structure QStyleOptionFrame where
  rect : QRect
  lineWidth : Int
deriving DecidableEq

/-- `Style::lineEditContentsRect` on a `QStyleOptionFrame`. -/
def lineEditContentsRect (m : Metrics) (option : QStyleOptionFrame) : QRect :=
  let flat := decide (option.lineWidth = 0)
  if flat then option.rect
  else
    insideMargin option.rect ((m.LineEdit_MarginWidth : Int) + m.Frame_FrameWidth)
      ((m.LineEdit_MarginWidth : Int) + m.Frame_FrameWidth)

/-- `Style::lineEditSizeFromContents` on a `QStyleOptionFrame`. -/
def lineEditSizeFromContents (m : Metrics) (option : QStyleOptionFrame) (contentsSize : QSize) :
    QSize :=
  let flat := decide (option.lineWidth = 0)
  if flat then contentsSize
  else
    expandSize contentsSize ((m.LineEdit_MarginWidth : Int) + m.Frame_FrameWidth)
      ((m.LineEdit_MarginWidth : Int) + m.Frame_FrameWidth)

/-- Qt colour, `QColor`: invalid, or the channels red, green, blue and alpha as `getRgb`
reports them. -/
inductive QColor where
  | invalid
  | rgba (red green blue alpha : Nat)
deriving DecidableEq

namespace QColor

/-- Colour `QColor(Qt::GlobalColor::black)`. -/
def black : QColor := .rgba 0 0 0 255

/-- Colour `QColor(Qt::GlobalColor::white)`. -/
def white : QColor := .rgba 255 255 255 255

end QColor

/-- `ColorTools::getBlackOrWhiteForegroundForHighContrast`. The quotient by 1000 is the `int`
division of the source; its conversion to `double` and `qRound` give the same integer back,
`qRoundDiv q 1`. -/
def getBlackOrWhiteForegroundForHighContrast (backgroundColor : QColor) : QColor :=
  match backgroundColor with
  | .invalid => .invalid
  | .rgba red green blue _ =>
    let brightness : Int :=
      qRoundDiv (Int.tdiv ((red : Int) * 299 + (green : Int) * 587 + (blue : Int) * 114) 1000) 1
    if brightness > 125 then QColor.black else QColor.white

/-! ## Geometry helpers -/

theorem mirror_width (d : LayoutDirection) (p r : QRect) : (mirror d p r).width = r.width := by
  cases d
  · rfl
  · simp only [mirror, QRect.moveLeft, QRect.width]; omega

/-- Mirroring keeps the height. -/
theorem mirror_height (d : LayoutDirection) (p r : QRect) : (mirror d p r).height = r.height := by
  cases d <;> rfl

/-- Mirroring twice within the same parent gives the rectangle back. -/
theorem mirror_mirror (d : LayoutDirection) (p r : QRect) : mirror d p (mirror d p r) = r := by
  cases d
  · rfl
  · cases r
    simp only [mirror, QRect.moveLeft, QRect.right, QRect.left, QRect.mk.injEq, and_true, true_and]
    constructor <;> omega

/-- Applying `handleRTL` twice gives the rectangle back. -/
theorem handleRTL_handleRTL (option : QStyleOptionSlider) (r : QRect) :
    handleRTL option (handleRTL option r) = r := mirror_mirror _ _ _

/-- The major-axis length is not changed by `handleRTL`. -/
theorem majorLength_handleRTL (option : QStyleOptionSlider) (r : QRect) :
    majorLength option (handleRTL option r) = majorLength option r := by
  unfold majorLength handleRTL
  rw [mirror_width, mirror_height]

/-- Under left-to-right reading, or on a vertical bar, `handleRTL` keeps the major-axis origin. -/
theorem majorOrigin_handleRTL (option : QStyleOptionSlider) (r : QRect)
    (hdir : option.direction = .LeftToRight ∨ option.horizontal = false) :
    majorOrigin option (handleRTL option r) = majorOrigin option r := by
  rcases hdir with h | h
  · simp only [handleRTL, mirror, h]
  · simp only [majorOrigin, h, Bool.false_eq_true, if_false, handleRTL]
    cases option.direction <;> rfl

/-- Under left-to-right reading, or on a vertical bar for a rectangle as wide as the track,
`handleRTL` leaves the rectangle where it is. -/
theorem handleRTL_eq_self (option : QStyleOptionSlider) (r : QRect)
    (hdir : option.direction = .LeftToRight ∨ option.horizontal = false)
    (hfull : option.horizontal = false → r.x1 = option.rect.x1 ∧ r.x2 = option.rect.x2) :
    handleRTL option r = r := by
  cases hd : option.direction
  · simp only [handleRTL, mirror, hd]
  · rcases hdir with h | h
    · rw [hd] at h; cases h
    · obtain ⟨ha, hb⟩ := hfull h
      cases r
      simp only [handleRTL, mirror, hd, QRect.moveLeft, QRect.right, QRect.left, QRect.mk.injEq,
        and_true, true_and] at *
      constructor <;> omega

/-- Membership in a `QRect`, as linear constraints on the corners. -/
theorem contains_iff (r : QRect) (p : QPoint) :
    r.contains p = true ↔
      ((r.x2 < r.x1 - 1 → r.x2 ≤ p.x ∧ p.x ≤ r.x1) ∧ (¬ r.x2 < r.x1 - 1 → r.x1 ≤ p.x ∧ p.x ≤ r.x2))
        ∧ ((r.y2 < r.y1 - 1 → r.y2 ≤ p.y ∧ p.y ≤ r.y1)
          ∧ (¬ r.y2 < r.y1 - 1 → r.y1 ≤ p.y ∧ p.y ≤ r.y2)) := by
  unfold QRect.contains
  by_cases hx : r.x2 < r.x1 - 1 <;> by_cases hy : r.y2 < r.y1 - 1 <;>
    simp only [hx, hy, if_true, if_false, true_implies, false_implies, not_true_eq_false,
      not_false_eq_true, and_true, true_and] <;>
    (split_ifs <;> simp only [Bool.false_eq_true, false_iff, true_iff] <;> omega)

/-- Rounding of a quotient is monotone in the numerator for a positive denominator. -/
theorem qRoundDiv_mono (n1 n2 d : Int) (hd : 0 < d) (h : n1 ≤ n2) :
    qRoundDiv n1 d ≤ qRoundDiv n2 d := by
  unfold qRoundDiv
  rw [Int.fdiv_eq_ediv _ (by omega), Int.fdiv_eq_ediv _ (by omega)]
  exact Int.ediv_le_ediv (by omega) (by omega)

/-- Rounding of a non-negative quotient is non-negative. -/
theorem qRoundDiv_nonneg (n d : Int) (hd : 0 < d) (h : 0 ≤ n) : 0 ≤ qRoundDiv n d := by
  unfold qRoundDiv
  rw [Int.fdiv_eq_ediv _ (by omega)]
  exact Int.ediv_nonneg (by omega) (by omega)

/-- Rounding of `k * s / d` stays at most `s` when `k ≤ d`. -/
theorem qRoundDiv_le (k s d : Int) (hd : 0 < d) (hs : 0 ≤ s) (hk : k ≤ d) :
    qRoundDiv (k * s) d ≤ s := by
  unfold qRoundDiv
  rw [Int.fdiv_eq_ediv _ (by omega)]
  have h1 : k * s ≤ d * s := Int.mul_le_mul_of_nonneg_right hk hs
  have h2 : 2 * (k * s) + d < (s + 1) * (2 * d) := by
    have : (s + 1) * (2 * d) = 2 * (d * s) + 2 * d := by ring
    omega
  have := Int.ediv_lt_of_lt_mul (by omega : 0 < 2 * d) h2
  omega

/-- The rectangle handed to `handleRTL` by the groove case, in closed form. -/
theorem groove_unmirrored (st : Style) (option : QStyleOptionSlider) :
    handleRTL option (scrollBarGrooveRect st option) =
      if option.horizontal then
        ⟨option.rect.x1 + (st.scrollBarButtonHeight st.subLineButtons : Int), option.rect.y1,
          option.rect.x2 - (st.scrollBarButtonHeight st.addLineButtons : Int) - 1, option.rect.y2⟩
      else
        ⟨option.rect.x1, option.rect.y1 + (st.scrollBarButtonHeight st.subLineButtons : Int),
          option.rect.x2, option.rect.y2 - (st.scrollBarButtonHeight st.addLineButtons : Int) - 1⟩ := by
  unfold scrollBarGrooveRect
  simp only [handleRTL_handleRTL, scrollBarInternalSubControlRect]
  cases option.horizontal
  · simp only [Bool.false_eq_true, if_false, handleRTL_handleRTL, QRect.ofCorners, QRect.ofXYWH,
      QRect.left, QRect.right, QRect.top, QRect.bottom, QRect.x, QRect.y, QRect.width,
      QRect.height, QRect.mk.injEq]
    refine ⟨?_, ?_, ?_, ?_⟩ <;> first | trivial | omega
  · simp only [if_true, handleRTL_handleRTL, QRect.ofCorners, QRect.ofXYWH,
      QRect.left, QRect.right, QRect.top, QRect.bottom, QRect.x, QRect.y, QRect.width,
      QRect.height, QRect.mk.injEq]
    refine ⟨?_, ?_, ?_, ?_⟩ <;> first | trivial | omega

/-- On a vertical bar the groove is as wide as the track. -/
theorem groove_full_width (st : Style) (option : QStyleOptionSlider)
    (hv : option.horizontal = false) :
    (handleRTL option (scrollBarGrooveRect st option)).x1 = option.rect.x1
      ∧ (handleRTL option (scrollBarGrooveRect st option)).x2 = option.rect.x2 := by
  rw [groove_unmirrored, hv]
  simp only [Bool.false_eq_true, if_false, and_self]

/-- Under left-to-right reading, or on a vertical bar, the groove is returned un-mirrored. -/
theorem groove_eq_unmirrored (st : Style) (option : QStyleOptionSlider)
    (hdir : option.direction = .LeftToRight ∨ option.horizontal = false) :
    handleRTL option (scrollBarGrooveRect st option) = scrollBarGrooveRect st option := by
  have h := handleRTL_eq_self option (handleRTL option (scrollBarGrooveRect st option)) hdir
    (groove_full_width st option)
  rw [handleRTL_handleRTL] at h
  exact h.symm

/-- Supporting fact for the slider length: for a non-empty range the major-axis length of the
Slider rect is `min (max (grooveSpan * pageStep / (maximum - minimum + pageStep)) floor) grooveSpan`
with the truncating quotient, `grooveSpan` being the major-axis length of the Groove rect the
code returns. -/
theorem slider_length_formula (st : Style) (option : QStyleOptionSlider)
    (hne : option.minimum ≠ option.maximum) :
    majorLength option (scrollBarSubControlRect st option .SC_ScrollBarSlider)
      = min (max (Int.tdiv (majorLength option (scrollBarSubControlRect st option .SC_ScrollBarGroove)
                * option.pageStep) (option.maximum - option.minimum + option.pageStep))
              (st.minSliderHeight : Int))
          (majorLength option (scrollBarSubControlRect st option .SC_ScrollBarGroove)) := by
  simp only [scrollBarSubControlRect, scrollBarSliderRect, if_neg hne]
  have hw : (handleRTL option (scrollBarGrooveRect st option)).width =
      (scrollBarGrooveRect st option).width := mirror_width _ _ _
  have hh : (handleRTL option (scrollBarGrooveRect st option)).height =
      (scrollBarGrooveRect st option).height := mirror_height _ _ _
  rw [hw, hh]
  generalize hG : scrollBarGrooveRect st option = G
  generalize hG2 : handleRTL option G = G2
  cases hhor : option.horizontal
  · simp only [majorLength, hhor, Bool.false_eq_true, if_false]
    generalize Int.tdiv (G.height * option.pageStep) (option.maximum - option.minimum + option.pageStep) = q
    split
    · rename_i h
      have : G2.height = G.height := by rw [← hG2]; exact mirror_height _ _ _
      rw [this]; omega
    · rw [show ∀ r, (handleRTL option r).height = r.height from fun r => mirror_height _ _ _]
      simp only [QRect.ofXYWH, QRect.height]; omega
  · simp only [majorLength, hhor, if_true]
    generalize Int.tdiv (G.width * option.pageStep) (option.maximum - option.minimum + option.pageStep) = q
    split
    · rename_i h
      have : G2.width = G.width := by rw [← hG2]; exact mirror_width _ _ _
      rw [this]; omega
    · rw [show ∀ r, (handleRTL option r).width = r.width from fun r => mirror_width _ _ _]
      simp only [QRect.ofXYWH, QRect.width]; omega

/-- Shape of the slider: either the early return of the un-mirrored groove, or a mirrored
rectangle at an offset `off` of length `sz` inside the un-mirrored groove. -/
theorem slider_shape (st : Style) (option : QStyleOptionSlider)
    (hrange : option.minimum < option.maximum)
    (hlo : option.minimum ≤ option.sliderPosition)
    (hhi : option.sliderPosition ≤ option.maximum) :
    scrollBarSliderRect st option = handleRTL option (scrollBarGrooveRect st option)
      ∨ ∃ off sz : Int, 0 ≤ off ∧ 0 ≤ sz
          ∧ off + sz ≤ majorLength option (handleRTL option (scrollBarGrooveRect st option))
          ∧ scrollBarSliderRect st option =
            if option.horizontal then
              handleRTL option (QRect.ofXYWH
                ((handleRTL option (scrollBarGrooveRect st option)).x + off)
                (handleRTL option (scrollBarGrooveRect st option)).y sz
                (handleRTL option (scrollBarGrooveRect st option)).height)
            else
              handleRTL option (QRect.ofXYWH
                (handleRTL option (scrollBarGrooveRect st option)).x
                ((handleRTL option (scrollBarGrooveRect st option)).y + off)
                (handleRTL option (scrollBarGrooveRect st option)).width sz) := by
  have hne : ¬ option.minimum = option.maximum := by omega
  simp only [scrollBarSliderRect, if_neg hne, majorLength]
  generalize handleRTL option (scrollBarGrooveRect st option) = G
  generalize hsp : (if option.horizontal = true then G.width else G.height) = space
  generalize hq : Int.tdiv (space * option.pageStep)
    (option.maximum - option.minimum + option.pageStep) = q
  by_cases hfree : space - min (max q (st.minSliderHeight : Int)) space ≤ 0
  · left; simp only [if_pos hfree]
  · right
    simp only [if_neg hfree]
    have hsz : min (max q (st.minSliderHeight : Int)) space = max q (st.minSliderHeight : Int) := by
      omega
    have hpos0 := qRoundDiv_nonneg
      ((option.sliderPosition - option.minimum) * (space - min (max q (st.minSliderHeight : Int)) space))
      (option.maximum - option.minimum) (by omega)
      (Int.mul_nonneg (by omega) (by omega))
    have hpos1 := qRoundDiv_le (option.sliderPosition - option.minimum)
      (space - min (max q (st.minSliderHeight : Int)) space)
      (option.maximum - option.minimum) (by omega) (by omega) (by omega)
    generalize qRoundDiv
      ((option.sliderPosition - option.minimum) * (space - min (max q (st.minSliderHeight : Int)) space))
      (option.maximum - option.minimum) = pos at hpos0 hpos1
    cases option.upsideDown
    · refine ⟨pos, min (max q (st.minSliderHeight : Int)) space, hpos0, by omega, by omega, ?_⟩
      simp only [Bool.false_eq_true, if_false]
    · refine ⟨space - min (max q (st.minSliderHeight : Int)) space - pos,
        min (max q (st.minSliderHeight : Int)) space, by omega, by omega, by omega, ?_⟩
      simp only [if_true]

/-- Closed form of the slider under left-to-right reading, or on a vertical bar, for a
position inside a non-empty range. -/
theorem slider_closed (st : Style) (option : QStyleOptionSlider)
    (hdir : option.direction = .LeftToRight ∨ option.horizontal = false)
    (hrange : option.minimum < option.maximum)
    (hlo : option.minimum ≤ option.sliderPosition)
    (hhi : option.sliderPosition ≤ option.maximum) :
    ∃ off sz : Int, 0 ≤ off
      ∧ off + sz ≤ majorLength option (scrollBarGrooveRect st option)
      ∧ (0 ≤ sz ∨ (off = 0 ∧ sz = majorLength option (scrollBarGrooveRect st option)))
      ∧ scrollBarSliderRect st option =
          if option.horizontal then
            ⟨(scrollBarGrooveRect st option).x1 + off, (scrollBarGrooveRect st option).y1,
              (scrollBarGrooveRect st option).x1 + off + sz - 1, (scrollBarGrooveRect st option).y2⟩
          else
            ⟨(scrollBarGrooveRect st option).x1, (scrollBarGrooveRect st option).y1 + off,
              (scrollBarGrooveRect st option).x2,
              (scrollBarGrooveRect st option).y1 + off + sz - 1⟩ := by
  have hfw := groove_full_width st option
  have hsh := slider_shape st option hrange hlo hhi
  rw [groove_eq_unmirrored st option hdir] at hfw hsh
  generalize scrollBarGrooveRect st option = G at hfw hsh ⊢
  rcases hsh with h | ⟨off, sz, h0, h1, h2, h⟩
  · refine ⟨0, majorLength option G, le_refl _, by omega, Or.inr ⟨rfl, rfl⟩, ?_⟩
    rw [h]
    cases G
    simp only [majorLength]
    cases option.horizontal <;>
      simp only [Bool.false_eq_true, if_false, if_true, QRect.width, QRect.height,
        QRect.mk.injEq, true_and, and_true] <;> omega
  · refine ⟨off, sz, h0, h2, Or.inl h1, ?_⟩
    rw [h]
    cases hhor : option.horizontal
    · simp only [Bool.false_eq_true, if_false]
      rw [handleRTL_eq_self option _ hdir]
      · cases G
        simp only [QRect.ofXYWH, QRect.x, QRect.y, QRect.width, QRect.mk.injEq, true_and, and_true]
        omega
      · intro hv
        have := hfw hv
        simp only [QRect.ofXYWH, QRect.x, QRect.width]
        omega
    · simp only [if_true]
      rw [handleRTL_eq_self option _ hdir]
      · cases G
        simp only [QRect.ofXYWH, QRect.x, QRect.y, QRect.height, QRect.mk.injEq, true_and, and_true]
        omega
      · intro hv
        rw [hhor] at hv
        cases hv

/-- The un-mirrored groove does not depend on the reading direction. -/
theorem groove_unmirrored_direction (st : Style) (option : QStyleOptionSlider)
    (d : LayoutDirection) :
    handleRTL { option with direction := d } (scrollBarGrooveRect st { option with direction := d })
      = handleRTL option (scrollBarGrooveRect st option) := by
  rw [groove_unmirrored, groove_unmirrored]

/-- The groove for a reading direction is the mirror of the un-mirrored groove. -/
theorem groove_direction (st : Style) (option : QStyleOptionSlider) (d : LayoutDirection) :
    scrollBarGrooveRect st { option with direction := d }
      = mirror d option.rect (handleRTL option (scrollBarGrooveRect st option)) := by
  have h := handleRTL_handleRTL { option with direction := d }
    (scrollBarGrooveRect st { option with direction := d })
  rw [groove_unmirrored_direction] at h
  rw [← h]
  rfl

/-- The slider is, for every reading direction alike, either the un-mirrored groove (the two
early returns) or the mirror of one rectangle that does not depend on the direction. -/
theorem slider_direction (st : Style) (option : QStyleOptionSlider) :
    (∀ d : LayoutDirection, scrollBarSliderRect st { option with direction := d }
        = handleRTL option (scrollBarGrooveRect st option))
      ∨ ∃ X : QRect, ∀ d : LayoutDirection,
          scrollBarSliderRect st { option with direction := d } = mirror d option.rect X := by
  simp only [scrollBarSliderRect, groove_unmirrored_direction]
  generalize handleRTL option (scrollBarGrooveRect st option) = LG
  by_cases he : option.minimum = option.maximum
  · left; intro d; simp only [if_pos he]
  · simp only [if_neg he]
    generalize hsp : (if option.horizontal = true then LG.width else LG.height) = space
    generalize hsz : min (max (Int.tdiv (space * option.pageStep)
      (option.maximum - option.minimum + option.pageStep)) (st.minSliderHeight : Int)) space = sz
    by_cases hfree : space - sz ≤ 0
    · left; intro d; simp only [if_pos hfree]
    · right
      simp only [if_neg hfree]
      cases hhor : option.horizontal
      · exact ⟨_, fun d => rfl⟩
      · exact ⟨_, fun d => rfl⟩

/-! ## Scroll bar claims -/

/-- Supporting fact for the track partition: under left-to-right reading, or on a vertical bar,
SubLine starts at the track start, Groove starts where SubLine ends, AddLine starts where
Groove ends, and AddLine ends one pixel before the end of the track. -/
theorem buttons_and_groove_consecutive (st : Style) (option : QStyleOptionSlider)
    (hdir : option.direction = .LeftToRight ∨ option.horizontal = false) :
    majorOrigin option (scrollBarSubControlRect st option .SC_ScrollBarSubLine)
        = majorOrigin option option.rect
      ∧ majorOrigin option (scrollBarSubControlRect st option .SC_ScrollBarSubLine)
          + majorLength option (scrollBarSubControlRect st option .SC_ScrollBarSubLine)
        = majorOrigin option (scrollBarSubControlRect st option .SC_ScrollBarGroove)
      ∧ majorOrigin option (scrollBarSubControlRect st option .SC_ScrollBarGroove)
          + majorLength option (scrollBarSubControlRect st option .SC_ScrollBarGroove)
        = majorOrigin option (scrollBarSubControlRect st option .SC_ScrollBarAddLine)
      ∧ majorOrigin option (scrollBarSubControlRect st option .SC_ScrollBarAddLine)
          + majorLength option (scrollBarSubControlRect st option .SC_ScrollBarAddLine)
        = majorOrigin option option.rect + majorLength option option.rect - 1 := by
  have hG := groove_unmirrored st option
  rw [groove_eq_unmirrored st option hdir] at hG
  simp only [scrollBarSubControlRect, scrollBarInternalSubControlRect, hG,
    majorOrigin_handleRTL option _ hdir, majorLength_handleRTL]
  cases hhor : option.horizontal <;>
    simp only [Bool.false_eq_true, if_false, if_true, majorOrigin_handleRTL option _ hdir,
      majorLength_handleRTL] <;>
    simp only [majorOrigin, majorLength, hhor, Bool.false_eq_true, if_false, if_true,
      QRect.ofXYWH, QRect.x, QRect.y, QRect.width, QRect.height, QRect.right, QRect.bottom]
  all_goals refine ⟨trivial, ?_, ?_, ?_⟩ <;> omega

/-- Claim C1, evaluated on the code at its own scenario (horizontal, left to right, track
`(0, 0, 200, 20)`, both buttons 16 px): SubLine is `(0, 0, 16, 20)` as claimed, but AddLine is
`(183, 0, 16, 20)` and Groove is `(16, 0, 167, 20)`, and the last column of the track,
`x = 199`, lies in the track and in none of the three rectangles. -/
theorem addLine_rect_stops_before_last_column :
    scrollBarSubControlRect (singleButtonStyle 16 10) (scenarioOption .LeftToRight 0 100 0 50)
        .SC_ScrollBarSubLine = QRect.ofXYWH 0 0 16 20
      ∧ scrollBarSubControlRect (singleButtonStyle 16 10) (scenarioOption .LeftToRight 0 100 0 50)
        .SC_ScrollBarAddLine = QRect.ofXYWH 183 0 16 20
      ∧ scrollBarSubControlRect (singleButtonStyle 16 10) (scenarioOption .LeftToRight 0 100 0 50)
        .SC_ScrollBarGroove = QRect.ofXYWH 16 0 167 20
      ∧ (QRect.ofXYWH 0 0 200 20).contains ⟨199, 0⟩ = true
      ∧ (QRect.ofXYWH 0 0 16 20).contains ⟨199, 0⟩ = false
      ∧ (QRect.ofXYWH 183 0 16 20).contains ⟨199, 0⟩ = false
      ∧ (QRect.ofXYWH 16 0 167 20).contains ⟨199, 0⟩ = false := by
  decide

/-- Claim C2, evaluated on the code at its own scenario (track `(0, 0, 200, 20)`, 16 px
buttons, minimum 0, maximum 100, page step 50, position 0) for every slider floor `m`: the
groove is `(16, 0, 167, 20)`, so the slider is `(16, 0, clamp(55, m, 167), 20)`, that is
55 px and not 56 px long for every floor up to 55. -/
theorem scenario_slider_is_55_wide (m : Nat) :
    scrollBarSubControlRect (singleButtonStyle 16 m) (scenarioOption .LeftToRight 0 100 0 50)
        .SC_ScrollBarGroove = QRect.ofXYWH 16 0 167 20
      ∧ scrollBarSubControlRect (singleButtonStyle 16 m) (scenarioOption .LeftToRight 0 100 0 50)
        .SC_ScrollBarSlider = QRect.ofXYWH 16 0 (min (max 55 (m : Int)) 167) 20 := by
  have hg : scrollBarGrooveRect (singleButtonStyle 16 m) (scenarioOption .LeftToRight 0 100 0 50)
        = QRect.ofXYWH 16 0 167 20 := by rfl
  have hq : Int.tdiv 8350 150 = 55 := by decide
  refine ⟨hg, ?_⟩
  simp only [scrollBarSubControlRect, scrollBarSliderRect, hg]
  simp only [scenarioOption, handleRTL, mirror, QRect.ofXYWH, QRect.width, QRect.height, QRect.x,
    QRect.y, singleButtonStyle, qRoundDiv]
  norm_num [hq]
  split
  · rename_i h
    have : min (max 55 (m : Int)) 167 = 167 := by omega
    rw [this]; rfl
  · rfl

/-- Claim C3 fails where the groove is shorter than the floor: on the track `(0, 0, 40, 20)`
with 16 px buttons and floor 10 the groove and the slider are 7 px long, so the slider is not
both at least the floor and at most the groove. -/
theorem slider_floor_fails_on_short_groove :
    ¬ (((singleButtonStyle 16 10).minSliderHeight : Int) ≤
          majorLength (⟨QRect.ofXYWH 0 0 40 20, true, .LeftToRight, 0, 100, 0, 50, false⟩)
            (scrollBarSubControlRect (singleButtonStyle 16 10)
              ⟨QRect.ofXYWH 0 0 40 20, true, .LeftToRight, 0, 100, 0, 50, false⟩ .SC_ScrollBarSlider)
        ∧ majorLength (⟨QRect.ofXYWH 0 0 40 20, true, .LeftToRight, 0, 100, 0, 50, false⟩)
            (scrollBarSubControlRect (singleButtonStyle 16 10)
              ⟨QRect.ofXYWH 0 0 40 20, true, .LeftToRight, 0, 100, 0, 50, false⟩ .SC_ScrollBarSlider)
          ≤ majorLength (⟨QRect.ofXYWH 0 0 40 20, true, .LeftToRight, 0, 100, 0, 50, false⟩)
            (scrollBarSubControlRect (singleButtonStyle 16 10)
              ⟨QRect.ofXYWH 0 0 40 20, true, .LeftToRight, 0, 100, 0, 50, false⟩ .SC_ScrollBarGroove)) := by
  decide

/-- Claim C3 as amended: for every style and every option the major-axis length of the Slider
rect is at most that of the Groove rect and at least the smaller of
`ScrollBar_MinSliderHeight` and the groove length. -/
theorem slider_length_bounds (st : Style) (option : QStyleOptionSlider) :
    majorLength option (scrollBarSubControlRect st option .SC_ScrollBarSlider)
        ≤ majorLength option (scrollBarSubControlRect st option .SC_ScrollBarGroove)
      ∧ min (st.minSliderHeight : Int)
          (majorLength option (scrollBarSubControlRect st option .SC_ScrollBarGroove))
        ≤ majorLength option (scrollBarSubControlRect st option .SC_ScrollBarSlider) := by
  by_cases hne : option.minimum = option.maximum
  · have : scrollBarSubControlRect st option .SC_ScrollBarSlider
        = handleRTL option (scrollBarSubControlRect st option .SC_ScrollBarGroove) := by
      simp only [scrollBarSubControlRect, scrollBarSliderRect, if_pos hne]
    rw [this, majorLength_handleRTL]
    omega
  · rw [slider_length_formula st option hne]
    omega

/-- Claim C4: under left-to-right reading, or on a vertical bar, with `minimum < maximum` and
positions `minimum ≤ p1 ≤ p2 ≤ maximum`, the major-axis origin of the Slider rect for `p1` is
at most that for `p2` when `upsideDown` is false, and at least that for `p2` when it is
true. -/
theorem slider_origin_monotone (st : Style) (option : QStyleOptionSlider) (p1 p2 : Int)
    (hdir : option.direction = .LeftToRight ∨ option.horizontal = false)
    (hrange : option.minimum < option.maximum)
    (_h1 : option.minimum ≤ p1) (h12 : p1 ≤ p2) (_h2 : p2 ≤ option.maximum) :
    (option.upsideDown = false →
        majorOrigin option
            (scrollBarSubControlRect st { option with sliderPosition := p1 } .SC_ScrollBarSlider)
          ≤ majorOrigin option
            (scrollBarSubControlRect st { option with sliderPosition := p2 } .SC_ScrollBarSlider))
      ∧ (option.upsideDown = true →
        majorOrigin option
            (scrollBarSubControlRect st { option with sliderPosition := p2 } .SC_ScrollBarSlider)
          ≤ majorOrigin option
            (scrollBarSubControlRect st { option with sliderPosition := p1 } .SC_ScrollBarSlider)) := by
  have hne : ¬ option.minimum = option.maximum := by omega
  have hg : ∀ p, scrollBarGrooveRect st { option with sliderPosition := p }
      = scrollBarGrooveRect st option := fun _ => rfl
  have hR : ∀ p r, handleRTL { option with sliderPosition := p } r = handleRTL option r :=
    fun _ _ => rfl
  simp only [scrollBarSubControlRect, scrollBarSliderRect, hg, hR, if_neg hne]
  generalize handleRTL option (scrollBarGrooveRect st option) = G
  generalize hsp : (if option.horizontal = true then G.width else G.height) = space
  generalize hsz : min (max (Int.tdiv (space * option.pageStep)
    (option.maximum - option.minimum + option.pageStep)) (st.minSliderHeight : Int)) space = sz
  by_cases hfree : space - sz ≤ 0
  · simp only [if_pos hfree]
    exact ⟨fun _ => le_refl _, fun _ => le_refl _⟩
  · simp only [if_neg hfree]
    have hmono : qRoundDiv ((p1 - option.minimum) * (space - sz)) (option.maximum - option.minimum)
        ≤ qRoundDiv ((p2 - option.minimum) * (space - sz)) (option.maximum - option.minimum) := by
      apply qRoundDiv_mono _ _ _ (by omega)
      exact Int.mul_le_mul_of_nonneg_right (by omega) (by omega)
    generalize qRoundDiv ((p1 - option.minimum) * (space - sz)) (option.maximum - option.minimum)
      = a at hmono
    generalize qRoundDiv ((p2 - option.minimum) * (space - sz)) (option.maximum - option.minimum)
      = b at hmono
    constructor
    · intro hu
      simp only [hu, Bool.false_eq_true, if_false]
      cases hhor : option.horizontal
      · simp only [Bool.false_eq_true, if_false, majorOrigin_handleRTL option _ hdir]
        simp only [majorOrigin, hhor, Bool.false_eq_true, if_false, QRect.ofXYWH, QRect.y]
        omega
      · simp only [if_true, majorOrigin_handleRTL option _ hdir]
        simp only [majorOrigin, hhor, if_true, QRect.ofXYWH, QRect.x]
        omega
    · intro hu
      simp only [hu, if_true]
      cases hhor : option.horizontal
      · simp only [Bool.false_eq_true, if_false, majorOrigin_handleRTL option _ hdir]
        simp only [majorOrigin, hhor, Bool.false_eq_true, if_false, QRect.ofXYWH, QRect.y]
        omega
      · simp only [if_true, majorOrigin_handleRTL option _ hdir]
        simp only [majorOrigin, hhor, if_true, QRect.ofXYWH, QRect.x]
        omega

/-- Witness for claim C4: positions 25 and 75 on the scenario track. -/
theorem slider_origin_monotone_witness :
    (scenarioOption .LeftToRight 0 100 0 50).minimum < (scenarioOption .LeftToRight 0 100 0 50).maximum
      ∧ majorOrigin (scenarioOption .LeftToRight 0 100 0 50)
          (scrollBarSubControlRect (singleButtonStyle 16 10)
            { scenarioOption .LeftToRight 0 100 0 50 with sliderPosition := 25 } .SC_ScrollBarSlider)
        ≤ majorOrigin (scenarioOption .LeftToRight 0 100 0 50)
          (scrollBarSubControlRect (singleButtonStyle 16 10)
            { scenarioOption .LeftToRight 0 100 0 50 with sliderPosition := 75 } .SC_ScrollBarSlider) :=
  ⟨by decide,
    (slider_origin_monotone (singleButtonStyle 16 10) (scenarioOption .LeftToRight 0 100 0 50) 25 75
      (Or.inl rfl) (by decide) (by decide) (by decide) (by decide)).1 rfl⟩

/-- Claim C5 fails on the code for a position outside the range: on the scenario track with
range `[0, 100]`, page step 50 and position 200 the point `(240, 5)` lies in the Slider rect,
yet the hit test does not return `SC_ScrollBarSlider`, whatever the helpers `preceeds` and
`scrollBarHitTest` answer. -/
theorem hitTest_misses_out_of_range_slider_point :
    (scrollBarSubControlRect (singleButtonStyle 16 10) (scenarioOption .LeftToRight 0 100 200 50)
        .SC_ScrollBarSlider).contains ⟨240, 5⟩ = true
      ∧ ∀ (preceeds : QPoint → QRect → QStyleOptionSlider → Bool)
          (scrollBarHitTest : QRect → QPoint → QStyleOptionSlider → SubControl),
          hitTestComplexControl (singleButtonStyle 16 10) preceeds scrollBarHitTest
            (scenarioOption .LeftToRight 0 100 200 50) ⟨240, 5⟩ ≠ .SC_ScrollBarSlider := by
  have hs : (scrollBarSubControlRect (singleButtonStyle 16 10)
      (scenarioOption .LeftToRight 0 100 200 50) .SC_ScrollBarSlider).contains ⟨240, 5⟩ = true := by
    decide
  have hg : (scrollBarSubControlRect (singleButtonStyle 16 10)
      (scenarioOption .LeftToRight 0 100 200 50) .SC_ScrollBarGroove).contains ⟨240, 5⟩ = false := by
    decide
  have hsub : (singleButtonStyle 16 10).subLineButtons = .SingleButton := rfl
  have hadd : (singleButtonStyle 16 10).addLineButtons = .SingleButton := rfl
  refine ⟨hs, ?_⟩
  intro preceeds scrollBarHitTest
  simp only [hitTestComplexControl, hg, hsub, hadd, Bool.false_eq_true, if_false, reduceCtorEq]
  split <;> simp only [ne_eq, reduceCtorEq, not_false_eq_true]

/-- Claim C5 as amended: for an empty range or a position inside the range, under
left-to-right reading, or on a vertical bar, or when the Slider rect is shorter than the
Groove rect, every point of the Slider rect is classified as `SC_ScrollBarSlider`. -/
theorem hitTest_slider_consistent (st : Style)
    (preceeds : QPoint → QRect → QStyleOptionSlider → Bool)
    (scrollBarHitTest : QRect → QPoint → QStyleOptionSlider → SubControl)
    (option : QStyleOptionSlider) (p : QPoint)
    (hpos : option.minimum = option.maximum
      ∨ (option.minimum ≤ option.sliderPosition ∧ option.sliderPosition ≤ option.maximum))
    (hdir : option.direction = .LeftToRight ∨ option.horizontal = false
      ∨ majorLength option (scrollBarSubControlRect st option .SC_ScrollBarSlider)
        < majorLength option (scrollBarSubControlRect st option .SC_ScrollBarGroove))
    (hp : (scrollBarSubControlRect st option .SC_ScrollBarSlider).contains p = true) :
    hitTestComplexControl st preceeds scrollBarHitTest option p = .SC_ScrollBarSlider := by
  have hg : (scrollBarSubControlRect st option .SC_ScrollBarGroove).contains p = true := by
    simp only [scrollBarSubControlRect] at hdir hp ⊢
    have hearly : scrollBarSliderRect st option = handleRTL option (scrollBarGrooveRect st option) →
        (scrollBarGrooveRect st option).contains p = true := by
      intro he
      rcases hdir with hd | hd | hd
      · rw [← groove_eq_unmirrored st option (Or.inl hd), ← he]; exact hp
      · rw [← groove_eq_unmirrored st option (Or.inr hd), ← he]; exact hp
      · rw [he, majorLength_handleRTL] at hd; omega
    by_cases he : option.minimum = option.maximum
    · apply hearly
      simp only [scrollBarSliderRect, if_pos he]
    · have hin : option.minimum ≤ option.sliderPosition ∧ option.sliderPosition ≤ option.maximum := by
        rcases hpos with h | h
        · exact absurd h he
        · exact h
      rcases slider_shape st option (by omega) hin.1 hin.2 with h | ⟨off, sz, h0, h1, h2, h⟩
      · exact hearly h
      · have hGr := (handleRTL_handleRTL option (scrollBarGrooveRect st option)).symm
        rw [h] at hp
        generalize handleRTL option (scrollBarGrooveRect st option) = LG at hGr h2 hp
        rw [hGr]
        rw [contains_iff] at hp ⊢
        obtain ⟨gx1, gy1, gx2, gy2⟩ := LG
        cases hhor : option.horizontal <;> cases hd : option.direction <;>
          simp only [handleRTL, mirror, hd, QRect.moveLeft, QRect.ofXYWH, majorLength, hhor,
            Bool.false_eq_true, if_false, if_true, QRect.width, QRect.height, QRect.x, QRect.y,
            QRect.left, QRect.right] at h2 hp ⊢ <;> omega
  simp only [hitTestComplexControl, hg, hp, if_true]

/-- Witness for claim C5 as amended: the scenario track read right to left, position 50. -/
theorem hitTest_slider_consistent_witness :
    (scrollBarSubControlRect (singleButtonStyle 16 10) (scenarioOption .RightToLeft 0 100 50 50)
        .SC_ScrollBarSlider).contains ⟨80, 5⟩ = true
      ∧ hitTestComplexControl (singleButtonStyle 16 10) (fun _ _ _ => false)
          (fun _ _ _ => .SC_ScrollBarAddLine) (scenarioOption .RightToLeft 0 100 50 50) ⟨80, 5⟩
        = .SC_ScrollBarSlider :=
  ⟨by decide,
    hitTest_slider_consistent (singleButtonStyle 16 10) (fun _ _ _ => false)
      (fun _ _ _ => .SC_ScrollBarAddLine) (scenarioOption .RightToLeft 0 100 50 50) ⟨80, 5⟩
      (Or.inr (by decide)) (Or.inr (Or.inr (by decide))) (by decide)⟩

/-- Supporting evaluation of the hit test: on the scenario track read right to left with
`minimum = maximum` the point `(16, 5)` lies in the Slider rect, yet the hit test does not
return `SC_ScrollBarSlider`, whatever the helpers `preceeds` and `scrollBarHitTest` answer. -/
theorem hitTest_misses_rightToLeft_slider_point
    (preceeds : QPoint → QRect → QStyleOptionSlider → Bool)
    (scrollBarHitTest : QRect → QPoint → QStyleOptionSlider → SubControl) :
    (scrollBarSubControlRect (singleButtonStyle 16 10) (scenarioOption .RightToLeft 0 0 0 50)
        .SC_ScrollBarSlider).contains ⟨16, 5⟩ = true
      ∧ hitTestComplexControl (singleButtonStyle 16 10) preceeds scrollBarHitTest
          (scenarioOption .RightToLeft 0 0 0 50) ⟨16, 5⟩ ≠ .SC_ScrollBarSlider := by
  have hs : (scrollBarSubControlRect (singleButtonStyle 16 10)
      (scenarioOption .RightToLeft 0 0 0 50) .SC_ScrollBarSlider).contains ⟨16, 5⟩ = true := by
    decide
  have hg : (scrollBarSubControlRect (singleButtonStyle 16 10)
      (scenarioOption .RightToLeft 0 0 0 50) .SC_ScrollBarGroove).contains ⟨16, 5⟩ = false := by
    decide
  have hsub : (singleButtonStyle 16 10).subLineButtons = .SingleButton := rfl
  have hadd : (singleButtonStyle 16 10).addLineButtons = .SingleButton := rfl
  refine ⟨hs, ?_⟩
  simp only [hitTestComplexControl, hg, hsub, hadd, Bool.false_eq_true, if_false, reduceCtorEq]
  split <;> simp only [ne_eq, reduceCtorEq, not_false_eq_true]

/-- Supporting fact for the mirror symmetry: SubLine, AddLine and Groove for right-to-left
reading are the mirror of the left-to-right rects, and so is every sub-region when the
Slider rect is shorter than the Groove rect, that is outside the two early returns. -/
theorem mirror_symmetry_outside_early_return (st : Style) (option : QStyleOptionSlider)
    (subControl : SubControl)
    (hreg : subControl = .SC_ScrollBarSubLine ∨ subControl = .SC_ScrollBarAddLine
      ∨ subControl = .SC_ScrollBarGroove
      ∨ majorLength option (scrollBarSubControlRect st option .SC_ScrollBarSlider)
        < majorLength option (scrollBarSubControlRect st option .SC_ScrollBarGroove)) :
    scrollBarSubControlRect st { option with direction := .RightToLeft } subControl
      = mirror .RightToLeft option.rect
          (scrollBarSubControlRect st { option with direction := .LeftToRight } subControl) := by
  have key : ∀ sc, (∃ Y : QRect, ∀ d : LayoutDirection,
      scrollBarSubControlRect st { option with direction := d } sc = mirror d option.rect Y) →
      scrollBarSubControlRect st { option with direction := .RightToLeft } sc
        = mirror .RightToLeft option.rect
          (scrollBarSubControlRect st { option with direction := .LeftToRight } sc) := by
    rintro sc ⟨Y, hY⟩
    rw [hY, hY]; rfl
  apply key
  have hsub : ∃ Y : QRect, ∀ d : LayoutDirection,
      scrollBarSubControlRect st { option with direction := d } .SC_ScrollBarSubLine
        = mirror d option.rect Y := by
    cases hhor : option.horizontal
    · exact ⟨_, fun d => by
        simp only [scrollBarSubControlRect, scrollBarInternalSubControlRect, hhor]; rfl⟩
    · exact ⟨_, fun d => by
        simp only [scrollBarSubControlRect, scrollBarInternalSubControlRect, hhor]; rfl⟩
  have hadd : ∃ Y : QRect, ∀ d : LayoutDirection,
      scrollBarSubControlRect st { option with direction := d } .SC_ScrollBarAddLine
        = mirror d option.rect Y := by
    cases hhor : option.horizontal
    · exact ⟨_, fun d => by
        simp only [scrollBarSubControlRect, scrollBarInternalSubControlRect, hhor]; rfl⟩
    · exact ⟨_, fun d => by
        simp only [scrollBarSubControlRect, scrollBarInternalSubControlRect, hhor]; rfl⟩
  have hgr : ∃ Y : QRect, ∀ d : LayoutDirection,
      scrollBarSubControlRect st { option with direction := d } .SC_ScrollBarGroove
        = mirror d option.rect Y :=
    ⟨_, fun d => groove_direction st option d⟩
  rcases hreg with h | h | h | h
  · rw [h]; exact hsub
  · rw [h]; exact hadd
  · rw [h]; exact hgr
  · rcases slider_direction st option with hs | ⟨X, hX⟩
    · exfalso
      have := hs option.direction
      change scrollBarSliderRect st option = _ at this
      simp only [scrollBarSubControlRect, this, majorLength_handleRTL] at h
      omega
    · cases subControl
      · exact hadd
      · exact hsub
      · refine ⟨if option.horizontal then
            QRect.ofXYWH (X.right + 1) (handleRTL option (scrollBarGrooveRect st option)).y
              ((handleRTL option (scrollBarGrooveRect st option)).right - X.right)
              (handleRTL option (scrollBarGrooveRect st option)).height
          else
            QRect.ofXYWH (handleRTL option (scrollBarGrooveRect st option)).x (X.bottom + 1)
              (handleRTL option (scrollBarGrooveRect st option)).width
              ((handleRTL option (scrollBarGrooveRect st option)).bottom - X.bottom), fun d => ?_⟩
        simp only [scrollBarSubControlRect, hX, groove_unmirrored_direction]
        simp only [handleRTL, mirror_mirror]
        split <;> rfl
      · refine ⟨if option.horizontal then
            QRect.ofXYWH (handleRTL option (scrollBarGrooveRect st option)).x
              (handleRTL option (scrollBarGrooveRect st option)).y
              (X.x - (handleRTL option (scrollBarGrooveRect st option)).x)
              (handleRTL option (scrollBarGrooveRect st option)).height
          else
            QRect.ofXYWH (handleRTL option (scrollBarGrooveRect st option)).x
              (handleRTL option (scrollBarGrooveRect st option)).y
              (handleRTL option (scrollBarGrooveRect st option)).width
              (X.y - (handleRTL option (scrollBarGrooveRect st option)).y), fun d => ?_⟩
        simp only [scrollBarSubControlRect, hX, groove_unmirrored_direction]
        simp only [handleRTL, mirror_mirror]
        split <;> rfl
      · exact ⟨X, fun d => by simp only [scrollBarSubControlRect, hX]⟩
      · exact hgr

/-- Claim C6, evaluated on the code: on the scenario track with `minimum = maximum` the
right-to-left Slider rect is `(16, 0, 167, 20)`, while the mirror of the left-to-right Slider
rect is `(17, 0, 167, 20)`. -/
theorem rightToLeft_slider_is_not_mirrored :
    scrollBarSubControlRect (singleButtonStyle 16 10) (scenarioOption .RightToLeft 0 0 0 50)
        .SC_ScrollBarSlider = QRect.ofXYWH 16 0 167 20
      ∧ mirror .RightToLeft (scenarioOption .RightToLeft 0 0 0 50).rect
          (scrollBarSubControlRect (singleButtonStyle 16 10) (scenarioOption .LeftToRight 0 0 0 50)
            .SC_ScrollBarSlider) = QRect.ofXYWH 17 0 167 20
      ∧ scrollBarSubControlRect (singleButtonStyle 16 10) (scenarioOption .RightToLeft 0 0 0 50)
        .SC_ScrollBarSlider
        ≠ mirror .RightToLeft (scenarioOption .RightToLeft 0 0 0 50).rect
          (scrollBarSubControlRect (singleButtonStyle 16 10) (scenarioOption .LeftToRight 0 0 0 50)
            .SC_ScrollBarSlider) := by
  decide

/-- Claim C7, evaluated on the code: on the scenario track read right to left with
`minimum = maximum` the Slider rect is `(16, 0, 167, 20)` and the Groove rect is
`(17, 0, 167, 20)`. -/
theorem rightToLeft_empty_range_slider_differs_from_groove :
    scrollBarSubControlRect (singleButtonStyle 16 10) (scenarioOption .RightToLeft 0 0 0 50)
        .SC_ScrollBarSlider = QRect.ofXYWH 16 0 167 20
      ∧ scrollBarSubControlRect (singleButtonStyle 16 10) (scenarioOption .RightToLeft 0 0 0 50)
        .SC_ScrollBarGroove = QRect.ofXYWH 17 0 167 20
      ∧ scrollBarSubControlRect (singleButtonStyle 16 10) (scenarioOption .RightToLeft 0 0 0 50)
        .SC_ScrollBarSlider
        ≠ scrollBarSubControlRect (singleButtonStyle 16 10) (scenarioOption .RightToLeft 0 0 0 50)
          .SC_ScrollBarGroove := by
  decide

/-- Claim C8 fails on the code: on the scenario track with range `[0, 100]` and page step 50
the position 200 gives the slider `(240, 0, 55, 20)`, the clamped position 100 gives
`(128, 0, 55, 20)`, and the slider for 200 starts beyond the right edge of the groove. -/
theorem slider_position_not_clamped :
    scrollBarSubControlRect (singleButtonStyle 16 10) (scenarioOption .LeftToRight 0 100 200 50)
        .SC_ScrollBarSlider = QRect.ofXYWH 240 0 55 20
      ∧ scrollBarSubControlRect (singleButtonStyle 16 10) (scenarioOption .LeftToRight 0 100 100 50)
        .SC_ScrollBarSlider = QRect.ofXYWH 128 0 55 20
      ∧ scrollBarSubControlRect (singleButtonStyle 16 10) (scenarioOption .LeftToRight 0 100 200 50)
        .SC_ScrollBarSlider
        ≠ scrollBarSubControlRect (singleButtonStyle 16 10)
          (scenarioOption .LeftToRight 0 100 100 50) .SC_ScrollBarSlider
      ∧ (scrollBarSubControlRect (singleButtonStyle 16 10) (scenarioOption .LeftToRight 0 100 200 50)
        .SC_ScrollBarGroove).right
        < (scrollBarSubControlRect (singleButtonStyle 16 10)
          (scenarioOption .LeftToRight 0 100 200 50) .SC_ScrollBarSlider).left := by
  decide

/-- Claim C8 as amended: under left-to-right reading, or on a vertical bar, with
`minimum < maximum` and `minimum ≤ sliderPosition ≤ maximum`, the Slider rect lies inside
the Groove rect on both axes. -/
theorem slider_inside_groove (st : Style) (option : QStyleOptionSlider)
    (hdir : option.direction = .LeftToRight ∨ option.horizontal = false)
    (hrange : option.minimum < option.maximum)
    (hlo : option.minimum ≤ option.sliderPosition)
    (hhi : option.sliderPosition ≤ option.maximum) :
    (scrollBarSubControlRect st option .SC_ScrollBarGroove).left
        ≤ (scrollBarSubControlRect st option .SC_ScrollBarSlider).left
      ∧ (scrollBarSubControlRect st option .SC_ScrollBarSlider).right
        ≤ (scrollBarSubControlRect st option .SC_ScrollBarGroove).right
      ∧ (scrollBarSubControlRect st option .SC_ScrollBarGroove).top
        ≤ (scrollBarSubControlRect st option .SC_ScrollBarSlider).top
      ∧ (scrollBarSubControlRect st option .SC_ScrollBarSlider).bottom
        ≤ (scrollBarSubControlRect st option .SC_ScrollBarGroove).bottom := by
  obtain ⟨off, sz, h0, h1, h2, h⟩ := slider_closed st option hdir hrange hlo hhi
  simp only [scrollBarSubControlRect, h]
  generalize scrollBarGrooveRect st option = G at *
  cases G
  cases hhor : option.horizontal <;>
    simp only [majorLength, hhor, Bool.false_eq_true, if_false, if_true, QRect.width,
      QRect.height, QRect.left, QRect.right, QRect.top, QRect.bottom] at h1 h2 ⊢ <;> omega

/-- Witness for claim C8 as amended: position 50 on the scenario track. -/
theorem slider_inside_groove_witness :
    (scenarioOption .LeftToRight 0 100 50 50).minimum < (scenarioOption .LeftToRight 0 100 50 50).maximum
      ∧ (scrollBarSubControlRect (singleButtonStyle 16 10) (scenarioOption .LeftToRight 0 100 50 50)
          .SC_ScrollBarSlider).right
        ≤ (scrollBarSubControlRect (singleButtonStyle 16 10) (scenarioOption .LeftToRight 0 100 50 50)
          .SC_ScrollBarGroove).right :=
  ⟨by decide,
    (slider_inside_groove (singleButtonStyle 16 10) (scenarioOption .LeftToRight 0 100 50 50)
      (Or.inl rfl) (by decide) (by decide) (by decide)).2.1⟩

/-- Claim C9: under left-to-right reading, or on a vertical bar, with `minimum < maximum` and
`minimum ≤ sliderPosition ≤ maximum`, SubPage starts where the groove starts, Slider starts
where SubPage ends, AddPage starts where Slider ends and ends where the groove ends; the two
page lengths are non-negative and the three lengths add up to the groove length; and every
point is in the Groove rect exactly when it is in one of the three, never in two of them. -/
theorem subPage_slider_addPage_partition (st : Style) (option : QStyleOptionSlider)
    (hdir : option.direction = .LeftToRight ∨ option.horizontal = false)
    (hrange : option.minimum < option.maximum)
    (hlo : option.minimum ≤ option.sliderPosition)
    (hhi : option.sliderPosition ≤ option.maximum) :
    majorOrigin option (scrollBarSubControlRect st option .SC_ScrollBarSubPage)
        = majorOrigin option (scrollBarSubControlRect st option .SC_ScrollBarGroove)
      ∧ majorOrigin option (scrollBarSubControlRect st option .SC_ScrollBarSubPage)
          + majorLength option (scrollBarSubControlRect st option .SC_ScrollBarSubPage)
        = majorOrigin option (scrollBarSubControlRect st option .SC_ScrollBarSlider)
      ∧ majorOrigin option (scrollBarSubControlRect st option .SC_ScrollBarSlider)
          + majorLength option (scrollBarSubControlRect st option .SC_ScrollBarSlider)
        = majorOrigin option (scrollBarSubControlRect st option .SC_ScrollBarAddPage)
      ∧ majorOrigin option (scrollBarSubControlRect st option .SC_ScrollBarAddPage)
          + majorLength option (scrollBarSubControlRect st option .SC_ScrollBarAddPage)
        = majorOrigin option (scrollBarSubControlRect st option .SC_ScrollBarGroove)
          + majorLength option (scrollBarSubControlRect st option .SC_ScrollBarGroove)
      ∧ 0 ≤ majorLength option (scrollBarSubControlRect st option .SC_ScrollBarSubPage)
      ∧ 0 ≤ majorLength option (scrollBarSubControlRect st option .SC_ScrollBarAddPage)
      ∧ majorLength option (scrollBarSubControlRect st option .SC_ScrollBarSubPage)
          + majorLength option (scrollBarSubControlRect st option .SC_ScrollBarSlider)
          + majorLength option (scrollBarSubControlRect st option .SC_ScrollBarAddPage)
        = majorLength option (scrollBarSubControlRect st option .SC_ScrollBarGroove)
      ∧ ∀ p : QPoint,
          ((scrollBarSubControlRect st option .SC_ScrollBarGroove).contains p = true ↔
            ((scrollBarSubControlRect st option .SC_ScrollBarSubPage).contains p = true
              ∨ (scrollBarSubControlRect st option .SC_ScrollBarSlider).contains p = true
              ∨ (scrollBarSubControlRect st option .SC_ScrollBarAddPage).contains p = true))
          ∧ ¬ ((scrollBarSubControlRect st option .SC_ScrollBarSubPage).contains p = true
              ∧ (scrollBarSubControlRect st option .SC_ScrollBarSlider).contains p = true)
          ∧ ¬ ((scrollBarSubControlRect st option .SC_ScrollBarSlider).contains p = true
              ∧ (scrollBarSubControlRect st option .SC_ScrollBarAddPage).contains p = true)
          ∧ ¬ ((scrollBarSubControlRect st option .SC_ScrollBarSubPage).contains p = true
              ∧ (scrollBarSubControlRect st option .SC_ScrollBarAddPage).contains p = true) := by
  obtain ⟨off, sz, h0, h1, h2, h⟩ := slider_closed st option hdir hrange hlo hhi
  have hfw := groove_full_width st option
  have hG := groove_eq_unmirrored st option hdir
  rw [hG] at hfw
  simp only [scrollBarSubControlRect, hG, h]
  simp only [contains_iff]
  generalize scrollBarGrooveRect st option = G at *
  obtain ⟨gx1, gy1, gx2, gy2⟩ := G
  cases hhor : option.horizontal
  · have hw := hfw hhor
    simp only [hhor, Bool.false_eq_true, if_false, majorLength, QRect.height] at h1 h2 hw
    have hs : handleRTL option ⟨gx1, gy1 + off, gx2, gy1 + off + sz - 1⟩
        = ⟨gx1, gy1 + off, gx2, gy1 + off + sz - 1⟩ :=
      handleRTL_eq_self option _ hdir (fun _ => hw)
    simp only [Bool.false_eq_true, if_false, hs]
    rw [handleRTL_eq_self option (QRect.ofXYWH _ _ _ _) hdir (by
      intro _; simp only [QRect.ofXYWH, QRect.x, QRect.width]; omega)]
    rw [handleRTL_eq_self option (QRect.ofXYWH _ _ _ _) hdir (by
      intro _; simp only [QRect.ofXYWH, QRect.x, QRect.width]; omega)]
    simp only [majorOrigin, majorLength, hhor, Bool.false_eq_true, if_false, QRect.ofXYWH,
      QRect.x, QRect.y, QRect.width, QRect.height, QRect.right, QRect.bottom]
    refine ⟨?_, ?_, ?_, ?_, ?_, ?_, ?_, ?_⟩
    any_goals first | trivial | omega
  · have hl : option.direction = .LeftToRight := by
      rcases hdir with hd | hd
      · exact hd
      · rw [hhor] at hd; cases hd
    simp only [hhor, if_true, majorLength, QRect.width] at h1 h2
    simp only [if_true, handleRTL, mirror, hl]
    simp only [majorOrigin, majorLength, hhor, if_true, QRect.ofXYWH,
      QRect.x, QRect.y, QRect.width, QRect.height, QRect.right, QRect.bottom]
    refine ⟨?_, ?_, ?_, ?_, ?_, ?_, ?_, ?_⟩
    any_goals first | trivial | omega

/-- Witness for claim C9: position 50 on the scenario track. -/
theorem subPage_slider_addPage_partition_witness :
    (scenarioOption .LeftToRight 0 100 50 50).minimum < (scenarioOption .LeftToRight 0 100 50 50).maximum
      ∧ majorLength (scenarioOption .LeftToRight 0 100 50 50)
            (scrollBarSubControlRect (singleButtonStyle 16 10)
              (scenarioOption .LeftToRight 0 100 50 50) .SC_ScrollBarSubPage)
          + majorLength (scenarioOption .LeftToRight 0 100 50 50)
            (scrollBarSubControlRect (singleButtonStyle 16 10)
              (scenarioOption .LeftToRight 0 100 50 50) .SC_ScrollBarSlider)
          + majorLength (scenarioOption .LeftToRight 0 100 50 50)
            (scrollBarSubControlRect (singleButtonStyle 16 10)
              (scenarioOption .LeftToRight 0 100 50 50) .SC_ScrollBarAddPage)
        = majorLength (scenarioOption .LeftToRight 0 100 50 50)
            (scrollBarSubControlRect (singleButtonStyle 16 10)
              (scenarioOption .LeftToRight 0 100 50 50) .SC_ScrollBarGroove) :=
  ⟨by decide,
    (subPage_slider_addPage_partition (singleButtonStyle 16 10)
      (scenarioOption .LeftToRight 0 100 50 50)
      (Or.inl rfl) (by decide) (by decide) (by decide)).2.2.2.2.2.2.1⟩

/-- Claim C10 fails on the code: on the scenario track with `minimum = maximum` the Slider
rect equals the Groove rect `(16, 0, 167, 20)`, while SubPage is `(16, 0, 0, 20)` and AddPage
is `(183, 0, 0, 20)`, neither of them the groove. -/
theorem pages_are_not_the_groove_when_slider_fills_it :
    scrollBarSubControlRect (singleButtonStyle 16 10) (scenarioOption .LeftToRight 0 0 0 50)
        .SC_ScrollBarSlider
      = scrollBarSubControlRect (singleButtonStyle 16 10) (scenarioOption .LeftToRight 0 0 0 50)
        .SC_ScrollBarGroove
      ∧ scrollBarSubControlRect (singleButtonStyle 16 10) (scenarioOption .LeftToRight 0 0 0 50)
        .SC_ScrollBarGroove = QRect.ofXYWH 16 0 167 20
      ∧ scrollBarSubControlRect (singleButtonStyle 16 10) (scenarioOption .LeftToRight 0 0 0 50)
        .SC_ScrollBarSubPage = QRect.ofXYWH 16 0 0 20
      ∧ scrollBarSubControlRect (singleButtonStyle 16 10) (scenarioOption .LeftToRight 0 0 0 50)
        .SC_ScrollBarAddPage = QRect.ofXYWH 183 0 0 20
      ∧ scrollBarSubControlRect (singleButtonStyle 16 10) (scenarioOption .LeftToRight 0 0 0 50)
        .SC_ScrollBarSubPage
        ≠ scrollBarSubControlRect (singleButtonStyle 16 10) (scenarioOption .LeftToRight 0 0 0 50)
          .SC_ScrollBarGroove
      ∧ scrollBarSubControlRect (singleButtonStyle 16 10) (scenarioOption .LeftToRight 0 0 0 50)
        .SC_ScrollBarAddPage
        ≠ scrollBarSubControlRect (singleButtonStyle 16 10) (scenarioOption .LeftToRight 0 0 0 50)
          .SC_ScrollBarGroove := by
  decide

/-- Claim C10 as amended: whenever the Slider rect equals the Groove rect, SubPage and AddPage
have major-axis length 0 and contain no point. -/
theorem pages_empty_when_slider_fills_groove (st : Style) (option : QStyleOptionSlider)
    (hfill : scrollBarSubControlRect st option .SC_ScrollBarSlider
      = scrollBarSubControlRect st option .SC_ScrollBarGroove) :
    majorLength option (scrollBarSubControlRect st option .SC_ScrollBarSubPage) = 0
      ∧ majorLength option (scrollBarSubControlRect st option .SC_ScrollBarAddPage) = 0
      ∧ ∀ p : QPoint,
          (scrollBarSubControlRect st option .SC_ScrollBarSubPage).contains p = false
            ∧ (scrollBarSubControlRect st option .SC_ScrollBarAddPage).contains p = false := by
  simp only [scrollBarSubControlRect] at hfill
  have hlen : majorLength option (scrollBarSubControlRect st option .SC_ScrollBarSubPage) = 0
      ∧ majorLength option (scrollBarSubControlRect st option .SC_ScrollBarAddPage) = 0 := by
    simp only [scrollBarSubControlRect, hfill]
    generalize handleRTL option (scrollBarGrooveRect st option) = G
    cases hhor : option.horizontal <;>
      simp only [Bool.false_eq_true, if_false, if_true, majorLength_handleRTL] <;>
      simp only [majorLength, hhor, Bool.false_eq_true, if_false, if_true, QRect.ofXYWH,
        QRect.width, QRect.height, QRect.x, QRect.y, QRect.right, QRect.bottom] <;>
      constructor <;> omega
  refine ⟨hlen.1, hlen.2, ?_⟩
  intro p
  obtain ⟨ha, hb⟩ := hlen
  generalize scrollBarSubControlRect st option .SC_ScrollBarSubPage = A at ha ⊢
  generalize scrollBarSubControlRect st option .SC_ScrollBarAddPage = B at hb ⊢
  rw [← Bool.not_eq_true, ← Bool.not_eq_true, contains_iff, contains_iff]
  cases hhor : option.horizontal <;>
    simp only [majorLength, hhor, Bool.false_eq_true, if_false, if_true, QRect.width,
      QRect.height] at ha hb <;>
    constructor <;> omega

/-- Witness for claim C10 as amended: the scenario track with an empty range. -/
theorem pages_empty_when_slider_fills_groove_witness :
    scrollBarSubControlRect (singleButtonStyle 16 10) (scenarioOption .LeftToRight 0 0 0 50)
        .SC_ScrollBarSlider
      = scrollBarSubControlRect (singleButtonStyle 16 10) (scenarioOption .LeftToRight 0 0 0 50)
        .SC_ScrollBarGroove
      ∧ majorLength (scenarioOption .LeftToRight 0 0 0 50)
          (scrollBarSubControlRect (singleButtonStyle 16 10) (scenarioOption .LeftToRight 0 0 0 50)
            .SC_ScrollBarSubPage) = 0 :=
  ⟨by decide,
    (pages_empty_when_slider_fills_groove (singleButtonStyle 16 10)
      (scenarioOption .LeftToRight 0 0 0 50) (by decide)).1⟩

/-! ## Dial, combo box, spin box, group box and tab bar claims -/

/-- The rect returned by `centerRect` has the asked width. -/
theorem centerRect_width (r : QRect) (w h : Int) : (centerRect r w h).width = w := by
  simp only [centerRect, QRect.ofXYWH, QRect.width]; omega

/-- Centering a rect of the asked width keeps its two vertical edges. -/
theorem centerRect_same_width_x1 (r : QRect) (w h : Int) (hw : r.width = w) :
    (centerRect r w h).x1 = r.x1 ∧ (centerRect r w h).x2 = r.x2 := by
  simp only [centerRect, QRect.ofXYWH, QRect.left, hw, sub_self, Int.zero_tdiv, add_zero,
    true_and]
  simp only [QRect.width] at hw
  omega

/-- Claim C11: for `maximum ≠ minimum`, with `f = (value - minimum) / (maximum - minimum)` and
`fraction = f` if `upsideDown` else `1 - f`, the angle of `dialAngle` is
`1.5 * pi - fraction * 2 * pi` when `dialWrapping` and `(8 * pi - fraction * 10 * pi) / 6`
otherwise, over the reals. -/
theorem dialAngle_formula (sliderOption : QStyleOptionSlider) (dialWrapping : Bool) (value : Int)
    (f fraction : ℝ)
    (hne : sliderOption.maximum ≠ sliderOption.minimum)
    (hf : f = ((value - sliderOption.minimum : Int) : ℝ)
      / ((sliderOption.maximum - sliderOption.minimum : Int) : ℝ))
    (hfraction : fraction = if sliderOption.upsideDown then f else 1 - f) :
    ((dialAngleOverPi sliderOption dialWrapping value : ℚ) : ℝ) * Real.pi
      = if dialWrapping then 1.5 * Real.pi - fraction * 2 * Real.pi
        else (8 * Real.pi - fraction * 10 * Real.pi) / 6 := by
  subst hf hfraction
  simp only [dialAngleOverPi, if_neg hne]
  cases sliderOption.upsideDown <;> cases dialWrapping <;>
    simp only [Bool.not_false, Bool.not_true, if_true, if_false, Bool.false_eq_true] <;>
    push_cast <;> ring

/-- Witness for claim C11: non-wrapping, minimum 0, maximum 100, value 0, not upside down gives
fraction 1 and the angle `-pi / 3`. -/
theorem dialAngle_formula_witness :
    (scenarioOption .LeftToRight 0 100 0 50).maximum ≠ (scenarioOption .LeftToRight 0 100 0 50).minimum
      ∧ ((dialAngleOverPi (scenarioOption .LeftToRight 0 100 0 50) false 0 : ℚ) : ℝ) * Real.pi
        = (8 * Real.pi - 1 * 10 * Real.pi) / 6
      ∧ (8 * Real.pi - 1 * 10 * Real.pi) / 6 = -Real.pi / 3 :=
  ⟨by decide,
    by
      have h := dialAngle_formula (scenarioOption .LeftToRight 0 100 0 50) false 0 0 1 (by decide)
        (by simp [scenarioOption]) (by simp [scenarioOption])
      simpa using h,
    by ring⟩

/-- Claim C12 fails on the code: for a non-wrapping, not upside down dial with
`minimum = maximum = 0` the angle is `pi / 2`, not `(8 * pi - 10 * pi) / 6`. -/
theorem dialAngle_empty_range_is_not_the_general_formula :
    ((dialAngleOverPi (scenarioOption .LeftToRight 0 0 0 50) false 0 : ℚ) : ℝ) * Real.pi
        = Real.pi / 2
      ∧ ((dialAngleOverPi (scenarioOption .LeftToRight 0 0 0 50) false 0 : ℚ) : ℝ) * Real.pi
        ≠ (8 * Real.pi - 10 * Real.pi) / 6 := by
  have h : dialAngleOverPi (scenarioOption .LeftToRight 0 0 0 50) false 0 = 1 / 2 := by
    simp [dialAngleOverPi, scenarioOption]
  rw [h]
  have hpi := Real.pi_pos
  constructor
  · push_cast; ring
  · push_cast
    intro hc
    nlinarith

/-- Claim C12 as amended: for `maximum = minimum` the angle of `dialAngle` is `pi / 2`, whatever
the value, `upsideDown` and `dialWrapping` are. -/
theorem dialAngle_empty_range (sliderOption : QStyleOptionSlider) (dialWrapping : Bool)
    (value : Int) (heq : sliderOption.maximum = sliderOption.minimum) :
    ((dialAngleOverPi sliderOption dialWrapping value : ℚ) : ℝ) * Real.pi = Real.pi / 2 := by
  simp only [dialAngleOverPi, if_pos heq]
  push_cast; ring

/-- Witness for claim C12 as amended: a wrapping dial with `minimum = maximum = 0`, value 7. -/
theorem dialAngle_empty_range_witness :
    (scenarioOption .LeftToRight 0 0 0 50).maximum = (scenarioOption .LeftToRight 0 0 0 50).minimum
      ∧ ((dialAngleOverPi (scenarioOption .LeftToRight 0 0 0 50) true 7 : ℚ) : ℝ) * Real.pi
        = Real.pi / 2 :=
  ⟨by decide, dialAngle_empty_range (scenarioOption .LeftToRight 0 0 0 50) true 7 (by decide)⟩

/-- Supporting fact for the combo box frame: the code returns the full rect exactly when the
combo box is flat, and the null rect otherwise. -/
theorem comboBox_frame_rect (m : Metrics) (option : QStyleOptionComboBox) :
    comboBoxSubControlRect m option .SC_ComboBoxFrame
      = if option.editable && !option.frame then option.rect else QRect.null := by
  rfl

/-- Claim C13, evaluated on the code for the rect `(0, 0, 100, 30)`: a combo box that is not
flat (not editable with a frame, or editable with a frame) gets the null rect as its frame,
and the flat one (editable without frame) gets the full rect. -/
theorem comboBox_frame_rect_is_inverted :
    comboBoxSubControlRect scenarioMetrics ⟨QRect.ofXYWH 0 0 100 30, .LeftToRight, false, true⟩
        .SC_ComboBoxFrame = QRect.null
      ∧ comboBoxSubControlRect scenarioMetrics ⟨QRect.ofXYWH 0 0 100 30, .LeftToRight, true, true⟩
        .SC_ComboBoxFrame = QRect.null
      ∧ comboBoxSubControlRect scenarioMetrics ⟨QRect.ofXYWH 0 0 100 30, .LeftToRight, true, false⟩
        .SC_ComboBoxFrame = QRect.ofXYWH 0 0 100 30 := by
  decide

/-- Claim C14: the spin box frame rect is the full bounding rect when `frame` is true and the
null rect when `frame` is false. -/
theorem spinBox_frame_rect (m : Metrics) (option : QStyleOptionSpinBox) :
    spinBoxSubControlRect m option .SC_SpinBoxFrame
      = if option.frame then option.rect else QRect.null := by
  cases h : option.frame <;> simp [spinBoxSubControlRect, h]

/-- Claim C15: the Up and Down rects of a spin box have the same x, are
`SpinBox_ArrowButtonWidth` wide and `SpinBox_ArrowButtonWidth / 2` high, Up is above Down, and
Down starts right below the last row of Up: `Down.top = Up.top + Up.height`. -/
theorem spinBox_up_down_adjacent (m : Metrics) (option : QStyleOptionSpinBox) :
    (spinBoxSubControlRect m option .SC_SpinBoxUp).x
        = (spinBoxSubControlRect m option .SC_SpinBoxDown).x
      ∧ (spinBoxSubControlRect m option .SC_SpinBoxUp).width = m.SpinBox_ArrowButtonWidth
      ∧ (spinBoxSubControlRect m option .SC_SpinBoxDown).width = m.SpinBox_ArrowButtonWidth
      ∧ (spinBoxSubControlRect m option .SC_SpinBoxUp).height
        = ((m.SpinBox_ArrowButtonWidth / 2 : Nat) : Int)
      ∧ (spinBoxSubControlRect m option .SC_SpinBoxDown).height
        = ((m.SpinBox_ArrowButtonWidth / 2 : Nat) : Int)
      ∧ (spinBoxSubControlRect m option .SC_SpinBoxUp).top
        ≤ (spinBoxSubControlRect m option .SC_SpinBoxDown).top
      ∧ (spinBoxSubControlRect m option .SC_SpinBoxDown).top
        = (spinBoxSubControlRect m option .SC_SpinBoxUp).top
          + (spinBoxSubControlRect m option .SC_SpinBoxUp).height
      ∧ (spinBoxSubControlRect m option .SC_SpinBoxUp).bottom + 1
        = (spinBoxSubControlRect m option .SC_SpinBoxDown).top := by
  simp only [spinBoxSubControlRect, reduceCtorEq, if_false, if_true]
  generalize (if (!(!option.frame)) = true then
    insideMargin option.rect m.Frame_FrameWidth m.Frame_FrameWidth else option.rect) = r
  cases option.direction <;>
    simp only [mirror, centerRect, QRect.moveLeft, QRect.ofXYWH, QRect.setHeight, QRect.translate,
      QRect.x, QRect.y, QRect.left, QRect.top, QRect.right, QRect.bottom, QRect.width,
      QRect.height] <;>
    refine ⟨?_, ?_, ?_, ?_, ?_, ?_, ?_, ?_⟩ <;> omega

/-- Claim C16, evaluated on the code for the bounding rect `(0, 0, 78, 22)`, the negotiated size
for contents `(50, 10)` with a frame: the pixel `(56, 4)` lies in the spin box EditField rect
and in the Up rect, the pixel `(56, 11)` in the EditField rect and in the Down rect, and for
the editable combo box the pixel `(56, 4)` lies in the EditField rect and in the Arrow
rect. -/
theorem editField_shares_a_pixel_with_the_arrows :
    (spinBoxSizeFromContents scenarioMetrics ⟨QRect.ofXYWH 0 0 78 22, .LeftToRight, true⟩ ⟨50, 10⟩
        = ⟨78, 22⟩
      ∧ (spinBoxSubControlRect scenarioMetrics ⟨QRect.ofXYWH 0 0 78 22, .LeftToRight, true⟩
          .SC_SpinBoxEditField).contains ⟨56, 4⟩ = true
      ∧ (spinBoxSubControlRect scenarioMetrics ⟨QRect.ofXYWH 0 0 78 22, .LeftToRight, true⟩
          .SC_SpinBoxUp).contains ⟨56, 4⟩ = true
      ∧ (spinBoxSubControlRect scenarioMetrics ⟨QRect.ofXYWH 0 0 78 22, .LeftToRight, true⟩
          .SC_SpinBoxEditField).contains ⟨56, 11⟩ = true
      ∧ (spinBoxSubControlRect scenarioMetrics ⟨QRect.ofXYWH 0 0 78 22, .LeftToRight, true⟩
          .SC_SpinBoxDown).contains ⟨56, 11⟩ = true)
      ∧ (comboBoxSizeFromContents scenarioMetrics
          ⟨QRect.ofXYWH 0 0 78 22, .LeftToRight, true, true⟩ ⟨50, 10⟩ = ⟨78, 22⟩
        ∧ (comboBoxSubControlRect scenarioMetrics ⟨QRect.ofXYWH 0 0 78 22, .LeftToRight, true, true⟩
            .SC_ComboBoxEditField).contains ⟨56, 4⟩ = true
        ∧ (comboBoxSubControlRect scenarioMetrics ⟨QRect.ofXYWH 0 0 78 22, .LeftToRight, true, true⟩
            .SC_ComboBoxArrow).contains ⟨56, 4⟩ = true) := by
  decide

/-- Claim C17: for a contents size with non-negative width and height and a bounding rect of the
size returned by `comboBoxSizeFromContents` (or `spinBoxSizeFromContents`), for every flag
combination and direction, the EditField rect is at least as wide and as high as the
contents. -/
theorem editField_holds_contents (m : Metrics) (contentsSize : QSize)
    (comboBoxOption : QStyleOptionComboBox) (spinBoxOption : QStyleOptionSpinBox)
    (hw : 0 ≤ contentsSize.width) (hh : 0 ≤ contentsSize.height)
    (hcw : comboBoxOption.rect.width
      = (comboBoxSizeFromContents m comboBoxOption contentsSize).width)
    (hch : comboBoxOption.rect.height
      = (comboBoxSizeFromContents m comboBoxOption contentsSize).height)
    (hsw : spinBoxOption.rect.width
      = (spinBoxSizeFromContents m spinBoxOption contentsSize).width)
    (hsh : spinBoxOption.rect.height
      = (spinBoxSizeFromContents m spinBoxOption contentsSize).height) :
    (contentsSize.width
        ≤ (comboBoxSubControlRect m comboBoxOption .SC_ComboBoxEditField).width
      ∧ contentsSize.height
        ≤ (comboBoxSubControlRect m comboBoxOption .SC_ComboBoxEditField).height)
      ∧ (contentsSize.width
          ≤ (spinBoxSubControlRect m spinBoxOption .SC_SpinBoxEditField).width
        ∧ contentsSize.height
          ≤ (spinBoxSubControlRect m spinBoxOption .SC_SpinBoxEditField).height) := by
  constructor
  · simp only [comboBoxSubControlRect, mirror_width, mirror_height]
    simp only [comboBoxSizeFromContents] at hcw hch
    cases he : comboBoxOption.editable <;> cases hf : comboBoxOption.frame <;>
      simp only [he, hf, Bool.and_true, Bool.and_false, Bool.true_and, Bool.false_and,
        Bool.not_true, Bool.not_false, if_true, if_false, Bool.false_eq_true,
        expandSize, insideMargin, QRect.ofXYWH, QRect.adjust, QRect.width, QRect.height,
        QRect.left, QRect.top] at hcw hch ⊢ <;>
      omega
  · simp only [spinBoxSubControlRect, mirror_width, mirror_height]
    simp only [spinBoxSizeFromContents] at hsw hsh
    cases hf : spinBoxOption.frame <;>
      simp only [hf, Bool.not_true, Bool.not_false, if_true, if_false, Bool.false_eq_true,
        expandSize, insideMargin, QRect.ofXYWH, QRect.adjust, QRect.width, QRect.height,
        QRect.left, QRect.top] at hsw hsh ⊢ <;>
      omega

/-- Witness for claim C17: contents `(50, 10)`, a non-editable framed combo box read right to
left and a framed spin box. -/
theorem editField_holds_contents_witness :
    (0 : Int) ≤ 50 ∧ (0 : Int) ≤ 10
      ∧ (comboBoxSizeFromContents scenarioMetrics
          ⟨QRect.ofXYWH 0 0 84 22, .RightToLeft, false, true⟩ ⟨50, 10⟩ = ⟨84, 22⟩
        ∧ spinBoxSizeFromContents scenarioMetrics
          ⟨QRect.ofXYWH 5 5 78 22, .LeftToRight, true⟩ ⟨50, 10⟩ = ⟨78, 22⟩)
      ∧ ((50 : Int) ≤ (comboBoxSubControlRect scenarioMetrics
            ⟨QRect.ofXYWH 0 0 84 22, .RightToLeft, false, true⟩ .SC_ComboBoxEditField).width
          ∧ (10 : Int) ≤ (comboBoxSubControlRect scenarioMetrics
            ⟨QRect.ofXYWH 0 0 84 22, .RightToLeft, false, true⟩ .SC_ComboBoxEditField).height)
        ∧ ((50 : Int) ≤ (spinBoxSubControlRect scenarioMetrics
            ⟨QRect.ofXYWH 5 5 78 22, .LeftToRight, true⟩ .SC_SpinBoxEditField).width
          ∧ (10 : Int) ≤ (spinBoxSubControlRect scenarioMetrics
            ⟨QRect.ofXYWH 5 5 78 22, .LeftToRight, true⟩ .SC_SpinBoxEditField).height) :=
  ⟨by decide, by decide, by decide,
    editField_holds_contents scenarioMetrics ⟨50, 10⟩
      ⟨QRect.ofXYWH 0 0 84 22, .RightToLeft, false, true⟩ ⟨QRect.ofXYWH 5 5 78 22, .LeftToRight, true⟩
      (by decide) (by decide) (by decide) (by decide) (by decide) (by decide)⟩

/-- Supporting fact for the group box contents: without any assumption the title band is
`h + 2 * GroupBox_TitleMarginWidth` when the title height
`h = max (text height if text present) (CheckBox_Size if checkable)` is positive, and 0
otherwise. -/
theorem groupBox_contents_title_height (m : Metrics) (option : QStyleOptionGroupBox) :
    groupBoxSubControlRect m option .SC_GroupBoxContents
        = (insideMargin option.rect m.Frame_FrameWidth m.Frame_FrameWidth).adjust 0
          (groupBoxContentsTitleHeight m option) 0 0
      ∧ groupBoxContentsTitleHeight m option
        = if 0 < max (if option.emptyText = false then (option.fontHeight : Int) else 0)
              (if option.checkable = true then (m.CheckBox_Size : Int) else 0)
          then max (if option.emptyText = false then (option.fontHeight : Int) else 0)
              (if option.checkable = true then (m.CheckBox_Size : Int) else 0)
            + 2 * m.GroupBox_TitleMarginWidth
          else 0 := by
  refine ⟨rfl, ?_⟩
  simp only [groupBoxContentsTitleHeight]
  cases he : option.emptyText <;> cases hc : option.checkable <;>
    simp only [Bool.not_true, Bool.not_false, if_true, if_false, Bool.false_eq_true,
      Bool.true_eq_false] <;>
    omega

/-- Claim C18: with a positive font height where text is present and a positive
`CheckBox_Size` where the box is checkable, the Contents rect of a group box is the rect inset
by `Frame_FrameWidth` with its top edge moved down by the title band, which is 0 if the text
is empty and the box is not checkable, and otherwise
`max (text height if text present) (CheckBox_Size if checkable) + 2 * GroupBox_TitleMarginWidth`. -/
theorem groupBox_contents_rect (m : Metrics) (option : QStyleOptionGroupBox)
    (hfont : option.emptyText = false → 0 < option.fontHeight)
    (hcheck : option.checkable = true → 0 < m.CheckBox_Size) :
    groupBoxSubControlRect m option .SC_GroupBoxContents
      = (insideMargin option.rect m.Frame_FrameWidth m.Frame_FrameWidth).adjust 0
          (if option.emptyText = true ∧ option.checkable = false then 0
            else max (if option.emptyText = false then (option.fontHeight : Int) else 0)
                (if option.checkable = true then (m.CheckBox_Size : Int) else 0)
              + 2 * m.GroupBox_TitleMarginWidth) 0 0 := by
  simp only [groupBoxSubControlRect, groupBoxContentsTitleHeight]
  congr 1
  cases he : option.emptyText <;> cases hc : option.checkable <;>
    simp only [he, hc, Bool.not_true, Bool.not_false, if_true, if_false, Bool.false_eq_true,
      and_true, and_false, true_and, false_and, forall_const, false_implies,
      Bool.true_eq_false] at hfont hcheck ⊢ <;>
    omega

/-- Witness for claim C18: checkable, with text, frame width 1, title margin 4, check box 16,
text height 12 gives the title band 24 and the Contents top offset `1 + 24`. -/
theorem groupBox_contents_rect_witness :
    groupBoxSubControlRect scenarioMetrics ⟨QRect.ofXYWH 0 0 200 100, .LeftToRight, true, false, 12, 50⟩
        .SC_GroupBoxContents
      = (insideMargin (QRect.ofXYWH 0 0 200 100) 1 1).adjust 0 24 0 0
      ∧ (groupBoxSubControlRect scenarioMetrics
          ⟨QRect.ofXYWH 0 0 200 100, .LeftToRight, true, false, 12, 50⟩ .SC_GroupBoxContents).top
        = 1 + 24 :=
  ⟨groupBox_contents_rect scenarioMetrics
      ⟨QRect.ofXYWH 0 0 200 100, .LeftToRight, true, false, 12, 50⟩ (by decide) (by decide),
    by decide⟩

/-- Claim C19: for a checkable group box with non-empty text the CheckBox rect is
`CheckBox_Size` wide and the Label rect as wide as the text; read left to right the CheckBox
lies left of the Label with exactly `CheckBox_BoxTextSpace` columns between them, read right
to left the Label lies left of the CheckBox with the same gap; and no pixel of the CheckBox
rect is in the same column as a pixel of the Label rect. -/
theorem groupBox_checkBox_label_gap (m : Metrics) (option : QStyleOptionGroupBox)
    (hcheck : option.checkable = true) (htext : option.emptyText = false) :
    (groupBoxSubControlRect m option .SC_GroupBoxCheckBox).width = m.CheckBox_Size
      ∧ (groupBoxSubControlRect m option .SC_GroupBoxLabel).width = option.textWidth
      ∧ (option.direction = .LeftToRight →
          (groupBoxSubControlRect m option .SC_GroupBoxCheckBox).right
              + m.CheckBox_BoxTextSpace + 1
            = (groupBoxSubControlRect m option .SC_GroupBoxLabel).left)
      ∧ (option.direction = .RightToLeft →
          (groupBoxSubControlRect m option .SC_GroupBoxLabel).right
              + m.CheckBox_BoxTextSpace + 1
            = (groupBoxSubControlRect m option .SC_GroupBoxCheckBox).left)
      ∧ ∀ p q : QPoint,
          (groupBoxSubControlRect m option .SC_GroupBoxCheckBox).contains p = true →
          (groupBoxSubControlRect m option .SC_GroupBoxLabel).contains q = true →
          p.x ≠ q.x := by
  have hW : groupBoxTitleWidth m option
      = (option.textWidth : Int) + m.CheckBox_Size + m.CheckBox_BoxTextSpace := by
    simp only [groupBoxTitleWidth, hcheck, htext, Bool.not_false, if_true, Bool.and_true]
    omega
  have hT : (groupBoxTitleRect m option).width = groupBoxTitleWidth m option :=
    centerRect_width _ _ _
  have hc := centerRect_same_width_x1 (groupBoxTitleRect m option) (groupBoxTitleWidth m option)
    m.CheckBox_Size hT
  have hl := centerRect_same_width_x1 (groupBoxTitleRect m option) (groupBoxTitleWidth m option)
    option.fontHeight hT
  simp only [groupBoxSubControlRect, hcheck, if_true]
  generalize centerRect (groupBoxTitleRect m option) (groupBoxTitleWidth m option)
    m.CheckBox_Size = Tc at hc ⊢
  generalize centerRect (groupBoxTitleRect m option) (groupBoxTitleWidth m option)
    option.fontHeight = Tl at hl ⊢
  rw [hW] at hT
  simp only [QRect.width] at hT
  obtain ⟨hc1, hc2⟩ := hc
  obtain ⟨hl1, hl2⟩ := hl
  refine ⟨?_, ?_, ?_, ?_, ?_⟩
  · cases option.direction <;>
      simp only [mirror, QRect.moveLeft, QRect.ofPointSize, QRect.topLeft, QRect.left,
        QRect.right, QRect.width, QRect.height] <;> omega
  · cases option.direction <;>
      simp only [mirror, QRect.moveLeft, QRect.adjust, QRect.left, QRect.right,
        QRect.width] <;> omega
  · intro hd
    simp only [hd, mirror, QRect.ofPointSize, QRect.topLeft, QRect.adjust, QRect.left,
      QRect.right, QRect.height]
    omega
  · intro hd
    simp only [hd, mirror, QRect.moveLeft, QRect.ofPointSize, QRect.topLeft, QRect.adjust,
      QRect.left, QRect.right, QRect.height]
    omega
  · intro p q hp hq
    rw [contains_iff] at hp hq
    cases hd : option.direction <;>
      simp only [hd, mirror, QRect.moveLeft, QRect.ofPointSize, QRect.topLeft, QRect.adjust,
        QRect.left, QRect.right, QRect.height] at hp hq <;> omega

/-- Witness for claim C19: the rect `(0, 0, 200, 100)`, text 50 wide and 12 high, read left to
right: CheckBox `(63, 5, 16, 16)`, Label `(87, 7, 50, 12)`. -/
theorem groupBox_checkBox_label_gap_witness :
    (groupBoxSubControlRect scenarioMetrics
        ⟨QRect.ofXYWH 0 0 200 100, .LeftToRight, true, false, 12, 50⟩ .SC_GroupBoxCheckBox).right
          + scenarioMetrics.CheckBox_BoxTextSpace + 1
        = (groupBoxSubControlRect scenarioMetrics
          ⟨QRect.ofXYWH 0 0 200 100, .LeftToRight, true, false, 12, 50⟩ .SC_GroupBoxLabel).left
      ∧ groupBoxSubControlRect scenarioMetrics
          ⟨QRect.ofXYWH 0 0 200 100, .LeftToRight, true, false, 12, 50⟩ .SC_GroupBoxCheckBox
        = QRect.ofXYWH 63 5 16 16
      ∧ groupBoxSubControlRect scenarioMetrics
          ⟨QRect.ofXYWH 0 0 200 100, .LeftToRight, true, false, 12, 50⟩ .SC_GroupBoxLabel
        = QRect.ofXYWH 87 7 50 12 :=
  ⟨(groupBox_checkBox_label_gap scenarioMetrics
      ⟨QRect.ofXYWH 0 0 200 100, .LeftToRight, true, false, 12, 50⟩ rfl rfl).2.2.1 rfl,
    by decide, by decide⟩

/-- Claim C20: for a North tab widget without corner widgets, a non-empty tab bar size
`(bw, bh)` and a parent rect `(x, y, w, h)` with `w ≥ 2`, the tab bar rect is
`(x + (w - bw') / 2, y + 1, bw', bh)` with `bw' = min bw (w - 2)`; it lies horizontally
inside the parent rect and its left and right gaps differ by at most 1. -/
theorem tabBar_north_rect (option : QStyleOptionTabWidgetFrame)
    (hshape : option.shape = .RoundedNorth ∨ option.shape = .TriangularNorth)
    (hleft : option.leftCornerWidgetSize.isEmpty = true)
    (hright : option.rightCornerWidgetSize.isEmpty = true)
    (hbar : option.tabBarSize.isEmpty = false)
    (_hw : 2 ≤ option.rect.width) :
    tabWidgetTabBarRect option
        = QRect.ofXYWH
          (option.rect.x
            + (option.rect.width - min option.tabBarSize.width (option.rect.width - 2)) / 2)
          (option.rect.y + 1)
          (min option.tabBarSize.width (option.rect.width - 2))
          option.tabBarSize.height
      ∧ option.rect.left ≤ (tabWidgetTabBarRect option).left
      ∧ (tabWidgetTabBarRect option).right ≤ option.rect.right
      ∧ ((tabWidgetTabBarRect option).left - option.rect.left)
          - (option.rect.right - (tabWidgetTabBarRect option).right) ≤ 1
      ∧ (option.rect.right - (tabWidgetTabBarRect option).right)
          - ((tabWidgetTabBarRect option).left - option.rect.left) ≤ 1 := by
  have hmain : tabWidgetTabBarRect option
      = QRect.ofXYWH
        (option.rect.x
          + (option.rect.width - min option.tabBarSize.width (option.rect.width - 2)) / 2)
        (option.rect.y + 1)
        (min option.tabBarSize.width (option.rect.width - 2))
        option.tabBarSize.height := by
    have hdiv : Int.tdiv (option.rect.width - min option.tabBarSize.width (option.rect.width - 2)) 2
        = (option.rect.width - min option.tabBarSize.width (option.rect.width - 2)) / 2 :=
      Int.tdiv_eq_ediv (by omega) (by omega)
    have hset : ((QRect.ofPointSize ⟨0, 0⟩ option.tabBarSize).setWidth
        (min (QRect.ofPointSize ⟨0, 0⟩ option.tabBarSize).width (option.rect.width - 2))).width
        = min option.tabBarSize.width (option.rect.width - 2) := by
      simp only [QRect.setWidth, QRect.ofPointSize, QRect.width]; omega
    rcases hshape with hs | hs <;>
      simp only [tabWidgetTabBarRect, hbar, hleft, hright, hs, isVerticalTab, Bool.false_eq_true,
        if_false, Bool.not_true, hset, hdiv] <;>
      simp only [QRect.moveTop, QRect.moveLeft, QRect.setWidth, QRect.ofPointSize, QRect.ofXYWH,
        QRect.left, QRect.top, QRect.x, QRect.y, QRect.width, QRect.mk.injEq] <;>
      refine ⟨?_, ?_, ?_, ?_⟩ <;> first | trivial | omega
  rw [hmain]
  refine ⟨rfl, ?_, ?_, ?_, ?_⟩ <;>
    simp only [QRect.ofXYWH, QRect.left, QRect.right, QRect.x, QRect.width] <;> omega

/-- Witness for claim C20: the bar `(120, 24)` in the parent `(0, 0, 300, 200)` is at `x = 90`, `y = 1`. -/
theorem tabBar_north_rect_witness :
    (2 : Int) ≤ (QRect.ofXYWH 0 0 300 200).width
      ∧ tabWidgetTabBarRect
          ⟨QRect.ofXYWH 0 0 300 200, .LeftToRight, .RoundedNorth, ⟨120, 24⟩, ⟨0, 0⟩, ⟨0, 0⟩, 1⟩
        = QRect.ofXYWH 90 1 120 24 :=
  ⟨by decide,
    (tabBar_north_rect
      ⟨QRect.ofXYWH 0 0 300 200, .LeftToRight, .RoundedNorth, ⟨120, 24⟩, ⟨0, 0⟩, ⟨0, 0⟩, 1⟩
      (Or.inl rfl) (by decide) (by decide) (by decide) (by decide)).1⟩

/-! ## Tab widget pane, frame and tab shape, scroll bar ends, line edit and colour claims -/


/-- Claim C21: for a tab widget with a non-empty tab bar size, `tabWidgetTabPaneRect` returns
the parent rect with only the edge on the side of the bar moved inward by the extent of the
bar along that axis minus the overlap `TabBar_BaseOverlap - 1` (top edge and bar height for
North, bottom edge and bar height for South, left edge and bar width for West, right edge and
bar width for East); the other three edges are those of the parent rect. -/
theorem tabWidgetTabPaneRect_edges (m : Metrics) (option : QStyleOptionTabWidgetFrame)
    (hbar : option.tabBarSize.isEmpty = false) :
    ((option.shape = .RoundedNorth ∨ option.shape = .TriangularNorth) →
        tabWidgetTabPaneRect m option
          = ⟨option.rect.x1,
              option.rect.y1 + (option.tabBarSize.height - ((m.TabBar_BaseOverlap : Int) - 1)),
              option.rect.x2, option.rect.y2⟩)
      ∧ ((option.shape = .RoundedSouth ∨ option.shape = .TriangularSouth) →
        tabWidgetTabPaneRect m option
          = ⟨option.rect.x1, option.rect.y1, option.rect.x2,
              option.rect.y2 - (option.tabBarSize.height - ((m.TabBar_BaseOverlap : Int) - 1))⟩)
      ∧ ((option.shape = .RoundedWest ∨ option.shape = .TriangularWest) →
        tabWidgetTabPaneRect m option
          = ⟨option.rect.x1 + (option.tabBarSize.width - ((m.TabBar_BaseOverlap : Int) - 1)),
              option.rect.y1, option.rect.x2, option.rect.y2⟩)
      ∧ ((option.shape = .RoundedEast ∨ option.shape = .TriangularEast) →
        tabWidgetTabPaneRect m option
          = ⟨option.rect.x1, option.rect.y1,
              option.rect.x2 - (option.tabBarSize.width - ((m.TabBar_BaseOverlap : Int) - 1)),
              option.rect.y2⟩) := by
  refine ⟨?_, ?_, ?_, ?_⟩ <;> intro hs <;> rcases hs with hs | hs <;>
    simp only [tabWidgetTabPaneRect, hbar, hs, Bool.false_eq_true, if_false, QRect.adjust,
      QRect.mk.injEq] <;>
    refine ⟨?_, ?_, ?_, ?_⟩ <;> first | trivial | omega

/-- Witness for claim C21: North, bar `(120, 24)`, parent `(0, 0, 300, 200)`, overlap `1`:
the pane is `(0, 23, 300, 177)`. -/
theorem tabWidgetTabPaneRect_edges_witness :
    (⟨120, 24⟩ : QSize).isEmpty = false
      ∧ tabWidgetTabPaneRect scenarioMetrics
          ⟨QRect.ofXYWH 0 0 300 200, .LeftToRight, .RoundedNorth, ⟨120, 24⟩, ⟨0, 0⟩, ⟨0, 0⟩, 1⟩
        = QRect.ofXYWH 0 (24 - 1) 300 (200 - (24 - 1)) :=
  ⟨by decide,
    ((tabWidgetTabPaneRect_edges scenarioMetrics
      ⟨QRect.ofXYWH 0 0 300 200, .LeftToRight, .RoundedNorth, ⟨120, 24⟩, ⟨0, 0⟩, ⟨0, 0⟩, 1⟩
      (by decide)).1 (Or.inl rfl)).trans (by decide)⟩

/-- Claim C22: for a tab widget with a non-empty tab bar size, when `lineWidth ≠ 0` the
contents rect is the pane rect inset by `TabWidget_MarginWidth` on all four sides; when
`lineWidth = 0` (document mode) it is the pane rect with only the edge adjacent to the bar
(top for North, bottom for South, left for West, right for East) moved inward by
`TabWidget_MarginWidth`, the other three edges unchanged. -/
theorem tabWidgetTabContentsRect_edges (m : Metrics) (option : QStyleOptionTabWidgetFrame)
    (hbar : option.tabBarSize.isEmpty = false) :
    (option.lineWidth ≠ 0 →
        tabWidgetTabContentsRect m option
          = insideMargin (tabWidgetTabPaneRect m option) m.TabWidget_MarginWidth
            m.TabWidget_MarginWidth)
      ∧ (option.lineWidth = 0 →
        ((option.shape = .RoundedNorth ∨ option.shape = .TriangularNorth) →
          tabWidgetTabContentsRect m option
            = ⟨(tabWidgetTabPaneRect m option).x1,
                (tabWidgetTabPaneRect m option).y1 + m.TabWidget_MarginWidth,
                (tabWidgetTabPaneRect m option).x2, (tabWidgetTabPaneRect m option).y2⟩)
        ∧ ((option.shape = .RoundedSouth ∨ option.shape = .TriangularSouth) →
          tabWidgetTabContentsRect m option
            = ⟨(tabWidgetTabPaneRect m option).x1, (tabWidgetTabPaneRect m option).y1,
                (tabWidgetTabPaneRect m option).x2,
                (tabWidgetTabPaneRect m option).y2 - m.TabWidget_MarginWidth⟩)
        ∧ ((option.shape = .RoundedWest ∨ option.shape = .TriangularWest) →
          tabWidgetTabContentsRect m option
            = ⟨(tabWidgetTabPaneRect m option).x1 + m.TabWidget_MarginWidth,
                (tabWidgetTabPaneRect m option).y1, (tabWidgetTabPaneRect m option).x2,
                (tabWidgetTabPaneRect m option).y2⟩)
        ∧ ((option.shape = .RoundedEast ∨ option.shape = .TriangularEast) →
          tabWidgetTabContentsRect m option
            = ⟨(tabWidgetTabPaneRect m option).x1, (tabWidgetTabPaneRect m option).y1,
                (tabWidgetTabPaneRect m option).x2 - m.TabWidget_MarginWidth,
                (tabWidgetTabPaneRect m option).y2⟩)) := by
  constructor
  · intro hl
    simp only [tabWidgetTabContentsRect, hbar, hl, Bool.false_eq_true, if_false, decide_False]
  · intro hl
    refine ⟨?_, ?_, ?_, ?_⟩ <;> intro hs <;> rcases hs with hs | hs <;>
      simp only [tabWidgetTabContentsRect, hbar, hl, hs, Bool.false_eq_true, if_false, if_true,
        decide_True, QRect.adjust, QRect.mk.injEq] <;>
      refine ⟨?_, ?_, ?_, ?_⟩ <;> first | trivial | omega

/-- Witness for claim C22: North, bar `(120, 24)`, parent `(0, 0, 300, 200)`: in document
mode the contents rect is `(0, 27, 300, 173)`, with a frame it is `(4, 27, 292, 169)`. -/
theorem tabWidgetTabContentsRect_edges_witness :
    (⟨120, 24⟩ : QSize).isEmpty = false
      ∧ tabWidgetTabContentsRect scenarioMetrics
          ⟨QRect.ofXYWH 0 0 300 200, .LeftToRight, .RoundedNorth, ⟨120, 24⟩, ⟨0, 0⟩, ⟨0, 0⟩, 0⟩
        = QRect.ofXYWH 0 27 300 173
      ∧ tabWidgetTabContentsRect scenarioMetrics
          ⟨QRect.ofXYWH 0 0 300 200, .LeftToRight, .RoundedNorth, ⟨120, 24⟩, ⟨0, 0⟩, ⟨0, 0⟩, 1⟩
        = QRect.ofXYWH 4 27 292 169 :=
  ⟨by decide,
    (((tabWidgetTabContentsRect_edges scenarioMetrics
      ⟨QRect.ofXYWH 0 0 300 200, .LeftToRight, .RoundedNorth, ⟨120, 24⟩, ⟨0, 0⟩, ⟨0, 0⟩, 0⟩
      (by decide)).2 rfl).1 (Or.inl rfl)).trans (by decide),
    ((tabWidgetTabContentsRect_edges scenarioMetrics
      ⟨QRect.ofXYWH 0 0 300 200, .LeftToRight, .RoundedNorth, ⟨120, 24⟩, ⟨0, 0⟩, ⟨0, 0⟩, 1⟩
      (by decide)).1 (by decide)).trans (by decide)⟩

/-- Counterexample for claim C23: for the North bar `(120, 24)` in the parent
`(0, 0, 300, 200)` the left corner rect is `(0, 0, 24, 25)` and the right one
`(276, 0, 24, 25)`: the height is `25`, not the side `24` of a square. -/
theorem tabWidget_corner_is_not_square :
    tabWidgetCornerRect .SE_TabWidgetLeftCorner
        ⟨QRect.ofXYWH 0 0 300 200, .LeftToRight, .RoundedNorth, ⟨120, 24⟩, ⟨0, 0⟩, ⟨0, 0⟩, 1⟩
        = QRect.ofXYWH 0 0 24 25
      ∧ tabWidgetCornerRect .SE_TabWidgetRightCorner
        ⟨QRect.ofXYWH 0 0 300 200, .LeftToRight, .RoundedNorth, ⟨120, 24⟩, ⟨0, 0⟩, ⟨0, 0⟩, 1⟩
        = QRect.ofXYWH 276 0 24 25
      ∧ (tabWidgetCornerRect .SE_TabWidgetLeftCorner
        ⟨QRect.ofXYWH 0 0 300 200, .LeftToRight, .RoundedNorth, ⟨120, 24⟩, ⟨0, 0⟩, ⟨0, 0⟩, 1⟩).height
        ≠ 24 := by
  decide

/-- Claim C23, amended: for a tab widget with shape North or South, a non-empty tab bar
size `(bw, bh)` and direction `LeftToRight`, the rects returned by `tabWidgetCornerRect` for
the left and the right corner are `bh` wide and `bh + 1` high, the left one with its left
edge on the left edge of the parent, the right one with its right edge on the right edge of
the parent, both anchored to the top edge (North) or the bottom edge (South) of the parent. -/
theorem tabWidget_corner_rects (option : QStyleOptionTabWidgetFrame) (element : CornerElement)
    (hshape : option.shape = .RoundedNorth ∨ option.shape = .TriangularNorth
      ∨ option.shape = .RoundedSouth ∨ option.shape = .TriangularSouth)
    (hbar : option.tabBarSize.isEmpty = false)
    (hdir : option.direction = .LeftToRight) :
    (tabWidgetCornerRect element option).width = option.tabBarSize.height
      ∧ (tabWidgetCornerRect element option).height = option.tabBarSize.height + 1
      ∧ (element = .SE_TabWidgetLeftCorner →
          (tabWidgetCornerRect element option).left = option.rect.left)
      ∧ (element = .SE_TabWidgetRightCorner →
          (tabWidgetCornerRect element option).right = option.rect.right)
      ∧ ((option.shape = .RoundedNorth ∨ option.shape = .TriangularNorth) →
          (tabWidgetCornerRect element option).top = option.rect.top)
      ∧ ((option.shape = .RoundedSouth ∨ option.shape = .TriangularSouth) →
          (tabWidgetCornerRect element option).bottom = option.rect.bottom) := by
  rcases hshape with hs | hs | hs | hs <;> cases element <;>
    simp only [tabWidgetCornerRect, hbar, hs, hdir, isVerticalTab, mirror, Bool.false_eq_true,
      if_false, if_true, reduceCtorEq, QRect.ofPointSize, QRect.moveLeft, QRect.moveRight,
      QRect.moveTop, QRect.moveBottom, QRect.left, QRect.right, QRect.top, QRect.bottom,
      QRect.width, QRect.height, false_implies, true_implies, or_self, or_false, false_or,
      forall_const] <;>
    refine ⟨?_, ?_, ?_⟩ <;> first | trivial | omega

/-- Witness for the amended claim C23: South, bar `(120, 24)`, parent `(0, 0, 300, 200)`:
the right corner rect is `(276, 175, 24, 25)`. -/
theorem tabWidget_corner_rects_witness :
    (⟨120, 24⟩ : QSize).isEmpty = false
      ∧ (tabWidgetCornerRect .SE_TabWidgetRightCorner
          ⟨QRect.ofXYWH 0 0 300 200, .LeftToRight, .RoundedSouth, ⟨120, 24⟩, ⟨0, 0⟩, ⟨0, 0⟩, 1⟩).height
        = 24 + 1
      ∧ tabWidgetCornerRect .SE_TabWidgetRightCorner
          ⟨QRect.ofXYWH 0 0 300 200, .LeftToRight, .RoundedSouth, ⟨120, 24⟩, ⟨0, 0⟩, ⟨0, 0⟩, 1⟩
        = QRect.ofXYWH 276 175 24 25 :=
  ⟨by decide,
    (tabWidget_corner_rects
      ⟨QRect.ofXYWH 0 0 300 200, .LeftToRight, .RoundedSouth, ⟨120, 24⟩, ⟨0, 0⟩, ⟨0, 0⟩, 1⟩
      .SE_TabWidgetRightCorner (Or.inr (Or.inr (Or.inl rfl))) (by decide) rfl).2.1,
    by decide⟩

/-- Claim C24: for every tab widget option whose shape is West or East, and for every
option whose tab bar size is empty, `tabWidgetCornerRect` returns the null rect for both
corner elements, whatever the parent rect, the corner widget sizes and the direction. -/
theorem tabWidget_corner_suppressed (option : QStyleOptionTabWidgetFrame)
    (element : CornerElement)
    (h : option.shape = .RoundedWest ∨ option.shape = .TriangularWest
      ∨ option.shape = .RoundedEast ∨ option.shape = .TriangularEast
      ∨ option.tabBarSize.isEmpty = true) :
    tabWidgetCornerRect element option = QRect.null := by
  cases hb : option.tabBarSize.isEmpty
  · rcases h with hs | hs | hs | hs | hs
    · simp only [tabWidgetCornerRect, hb, hs, isVerticalTab, Bool.false_eq_true, if_false, if_true]
    · simp only [tabWidgetCornerRect, hb, hs, isVerticalTab, Bool.false_eq_true, if_false, if_true]
    · simp only [tabWidgetCornerRect, hb, hs, isVerticalTab, Bool.false_eq_true, if_false, if_true]
    · simp only [tabWidgetCornerRect, hb, hs, isVerticalTab, Bool.false_eq_true, if_false, if_true]
    · rw [hb] at hs; cases hs
  · simp only [tabWidgetCornerRect, hb, if_true]

/-- Witness for claim C24: a West bar with corner widgets under right-to-left reading, and
a North widget with an empty bar, both give the null rect. -/
theorem tabWidget_corner_suppressed_witness :
    tabWidgetCornerRect .SE_TabWidgetLeftCorner
        ⟨QRect.ofXYWH 0 0 300 200, .RightToLeft, .RoundedWest, ⟨24, 120⟩, ⟨10, 10⟩, ⟨10, 10⟩, 1⟩
        = QRect.null
      ∧ tabWidgetCornerRect .SE_TabWidgetRightCorner
        ⟨QRect.ofXYWH 0 0 300 200, .LeftToRight, .RoundedNorth, ⟨0, 0⟩, ⟨10, 10⟩, ⟨10, 10⟩, 1⟩
        = QRect.null :=
  ⟨tabWidget_corner_suppressed
      ⟨QRect.ofXYWH 0 0 300 200, .RightToLeft, .RoundedWest, ⟨24, 120⟩, ⟨10, 10⟩, ⟨10, 10⟩, 1⟩
      .SE_TabWidgetLeftCorner (Or.inl rfl),
    tabWidget_corner_suppressed
      ⟨QRect.ofXYWH 0 0 300 200, .LeftToRight, .RoundedNorth, ⟨0, 0⟩, ⟨10, 10⟩, ⟨10, 10⟩, 1⟩
      .SE_TabWidgetRightCorner (Or.inr (Or.inr (Or.inr (Or.inr (by decide)))))⟩

/-- Claim C25: in `drawFrameTabWidgetPrimitive`, for a non-empty tab bar size, the frame
renderer receives the parent rect and the corner set of all four corners minus the two corners
on the edge of the bar (top for North, bottom for South, left for West, right for East)
exactly when the extent of the bar along that edge (width for North and South, height for
West and East) is at least the extent of the parent along that edge minus twice
`TabBar_TabRadius`, and all four corners otherwise; what is left after the removal is the
pair of corners of the opposite edge, which is therefore always kept. -/
theorem frameTabWidget_corners (m : Metrics) (option : QStyleOptionTabWidgetFrame)
    (hbar : option.tabBarSize.isEmpty = false) :
    ((option.shape = .RoundedNorth ∨ option.shape = .TriangularNorth) →
        drawFrameTabWidgetPrimitive m option
          = some (option.rect,
            if option.tabBarSize.width ≥ option.rect.width - 2 * m.TabBar_TabRadius then
              Corners.CornersAll.remove Corners.CornersTop
            else Corners.CornersAll))
      ∧ ((option.shape = .RoundedSouth ∨ option.shape = .TriangularSouth) →
        drawFrameTabWidgetPrimitive m option
          = some (option.rect,
            if option.tabBarSize.width ≥ option.rect.width - 2 * m.TabBar_TabRadius then
              Corners.CornersAll.remove Corners.CornersBottom
            else Corners.CornersAll))
      ∧ ((option.shape = .RoundedWest ∨ option.shape = .TriangularWest) →
        drawFrameTabWidgetPrimitive m option
          = some (option.rect,
            if option.tabBarSize.height ≥ option.rect.height - 2 * m.TabBar_TabRadius then
              Corners.CornersAll.remove Corners.CornersLeft
            else Corners.CornersAll))
      ∧ ((option.shape = .RoundedEast ∨ option.shape = .TriangularEast) →
        drawFrameTabWidgetPrimitive m option
          = some (option.rect,
            if option.tabBarSize.height ≥ option.rect.height - 2 * m.TabBar_TabRadius then
              Corners.CornersAll.remove Corners.CornersRight
            else Corners.CornersAll))
      ∧ Corners.CornersAll.remove Corners.CornersTop = Corners.CornersBottom
      ∧ Corners.CornersAll.remove Corners.CornersBottom = Corners.CornersTop
      ∧ Corners.CornersAll.remove Corners.CornersLeft = Corners.CornersRight
      ∧ Corners.CornersAll.remove Corners.CornersRight = Corners.CornersLeft := by
  refine ⟨?_, ?_, ?_, ?_, rfl, rfl, rfl, rfl⟩ <;> intro hs <;> rcases hs with hs | hs <;>
    simp only [drawFrameTabWidgetPrimitive, hbar, hs, Bool.false_eq_true, if_false]

/-- Witness for claim C25: North, parent `(0, 0, 300, 200)`, radius `2`: the bar
`(296, 24)` leaves the bottom corners only, the bar `(120, 24)` keeps all four. -/
theorem frameTabWidget_corners_witness :
    (⟨296, 24⟩ : QSize).isEmpty = false
      ∧ drawFrameTabWidgetPrimitive scenarioMetrics
          ⟨QRect.ofXYWH 0 0 300 200, .LeftToRight, .RoundedNorth, ⟨296, 24⟩, ⟨0, 0⟩, ⟨0, 0⟩, 1⟩
        = some (QRect.ofXYWH 0 0 300 200, Corners.CornersBottom)
      ∧ drawFrameTabWidgetPrimitive scenarioMetrics
          ⟨QRect.ofXYWH 0 0 300 200, .LeftToRight, .RoundedNorth, ⟨120, 24⟩, ⟨0, 0⟩, ⟨0, 0⟩, 1⟩
        = some (QRect.ofXYWH 0 0 300 200, Corners.CornersAll) :=
  ⟨by decide,
    ((frameTabWidget_corners scenarioMetrics
      ⟨QRect.ofXYWH 0 0 300 200, .LeftToRight, .RoundedNorth, ⟨296, 24⟩, ⟨0, 0⟩, ⟨0, 0⟩, 1⟩
      (by decide)).1 (Or.inl rfl)).trans (by decide),
    ((frameTabWidget_corners scenarioMetrics
      ⟨QRect.ofXYWH 0 0 300 200, .LeftToRight, .RoundedNorth, ⟨120, 24⟩, ⟨0, 0⟩, ⟨0, 0⟩, 1⟩
      (by decide)).1 (Or.inl rfl)).trans (by decide)⟩

/-- Rounding the quotient `0 / d` gives `0`. -/
theorem qRoundDiv_zero (d : Int) (hd : 0 < d) : qRoundDiv 0 d = 0 := by
  unfold qRoundDiv
  rw [Int.fdiv_eq_ediv _ (by omega)]
  exact Int.ediv_eq_zero_of_lt (by omega) (by omega)

/-- Rounding the exact quotient `d * s / d` gives `s`. -/
theorem qRoundDiv_mul_self (d s : Int) (hd : 0 < d) : qRoundDiv (d * s) d = s := by
  unfold qRoundDiv
  rw [Int.fdiv_eq_ediv _ (by omega)]
  have h : 2 * (d * s) + d = d + s * (2 * d) := by ring
  rw [h, Int.add_mul_ediv_right _ _ (by omega : (2 * d) ≠ 0),
    Int.ediv_eq_zero_of_lt (by omega) (by omega)]
  omega

/-- Claim C26: for a left-to-right (or vertical) scroll bar with `minimum < maximum` and
positive free space (the Slider rect is shorter than the Groove rect along the major axis):
at `sliderPosition = minimum` with `upsideDown` false the leading edge of the Slider rect is
the leading edge of the Groove rect, at `sliderPosition = maximum` its trailing edge is the
trailing edge of the Groove rect, and with `upsideDown` true the two cases are swapped. -/
theorem slider_at_range_ends (st : Style) (option : QStyleOptionSlider)
    (hdir : option.direction = .LeftToRight ∨ option.horizontal = false)
    (hrange : option.minimum < option.maximum)
    (hfree : majorLength option (scrollBarSubControlRect st option .SC_ScrollBarSlider)
      < majorLength option (scrollBarSubControlRect st option .SC_ScrollBarGroove)) :
    (((option.sliderPosition = option.minimum ∧ option.upsideDown = false)
          ∨ (option.sliderPosition = option.maximum ∧ option.upsideDown = true)) →
        majorOrigin option (scrollBarSubControlRect st option .SC_ScrollBarSlider)
          = majorOrigin option (scrollBarSubControlRect st option .SC_ScrollBarGroove))
      ∧ (((option.sliderPosition = option.maximum ∧ option.upsideDown = false)
          ∨ (option.sliderPosition = option.minimum ∧ option.upsideDown = true)) →
        majorOrigin option (scrollBarSubControlRect st option .SC_ScrollBarSlider)
            + majorLength option (scrollBarSubControlRect st option .SC_ScrollBarSlider)
          = majorOrigin option (scrollBarSubControlRect st option .SC_ScrollBarGroove)
            + majorLength option (scrollBarSubControlRect st option .SC_ScrollBarGroove)) := by
  have hne : ¬ option.minimum = option.maximum := by omega
  simp only [scrollBarSubControlRect, scrollBarSliderRect, if_neg hne,
    groove_eq_unmirrored st option hdir] at hfree ⊢
  generalize scrollBarGrooveRect st option = G at hfree ⊢
  have hsp : (if option.horizontal = true then G.width else G.height) = majorLength option G := rfl
  rw [hsp] at hfree ⊢
  generalize hspace : majorLength option G = space at hfree ⊢
  generalize hsz : min (max (Int.tdiv (space * option.pageStep)
    (option.maximum - option.minimum + option.pageStep)) (st.minSliderHeight : Int)) space = sz
    at hfree ⊢
  by_cases hf : space - sz ≤ 0
  · simp only [if_pos hf] at hfree
    omega
  · simp only [if_neg hf] at hfree ⊢
    have h0 : qRoundDiv ((option.minimum - option.minimum) * (space - sz))
        (option.maximum - option.minimum) = 0 := by
      rw [sub_self, zero_mul]; exact qRoundDiv_zero _ (by omega)
    have h1 : qRoundDiv ((option.maximum - option.minimum) * (space - sz))
        (option.maximum - option.minimum) = space - sz :=
      qRoundDiv_mul_self _ _ (by omega)
    have hlen : ∀ pos : Int, majorLength option
        (if option.horizontal = true then
          handleRTL option (QRect.ofXYWH (G.x + pos) G.y sz G.height)
        else handleRTL option (QRect.ofXYWH G.x (G.y + pos) G.width sz)) = sz := by
      intro pos
      cases hhor : option.horizontal <;>
        simp only [Bool.false_eq_true, if_false, if_true, majorLength_handleRTL] <;>
        simp only [majorLength, hhor, Bool.false_eq_true, if_false, if_true, QRect.ofXYWH,
          QRect.width, QRect.height] <;> omega
    have horg : ∀ pos : Int, majorOrigin option
        (if option.horizontal = true then
          handleRTL option (QRect.ofXYWH (G.x + pos) G.y sz G.height)
        else handleRTL option (QRect.ofXYWH G.x (G.y + pos) G.width sz))
          = majorOrigin option G + pos := by
      intro pos
      cases hhor : option.horizontal <;>
        simp only [Bool.false_eq_true, if_false, if_true, majorOrigin_handleRTL option _ hdir] <;>
        simp only [majorOrigin, hhor, Bool.false_eq_true, if_false, if_true, QRect.ofXYWH,
          QRect.x, QRect.y]
    simp only [hlen, horg]
    constructor
    · rintro (⟨hp, hu⟩ | ⟨hp, hu⟩)
      · simp only [hp, hu, h0, Bool.false_eq_true, if_false]; omega
      · simp only [hp, hu, h1, if_true]; omega
    · rintro (⟨hp, hu⟩ | ⟨hp, hu⟩)
      · simp only [hp, hu, h1, Bool.false_eq_true, if_false]; omega
      · simp only [hp, hu, h0, if_true]; omega

/-- Witness for claim C26: on the track `(0, 0, 200, 20)` with range `[0, 100]`, page step
`50` and position `100`, the slider ends where the groove ends. -/
theorem slider_at_range_ends_witness :
    (scenarioOption .LeftToRight 0 100 100 50).minimum
        < (scenarioOption .LeftToRight 0 100 100 50).maximum
      ∧ majorOrigin (scenarioOption .LeftToRight 0 100 100 50)
            (scrollBarSubControlRect (singleButtonStyle 16 10)
              (scenarioOption .LeftToRight 0 100 100 50) .SC_ScrollBarSlider)
          + majorLength (scenarioOption .LeftToRight 0 100 100 50)
            (scrollBarSubControlRect (singleButtonStyle 16 10)
              (scenarioOption .LeftToRight 0 100 100 50) .SC_ScrollBarSlider)
        = majorOrigin (scenarioOption .LeftToRight 0 100 100 50)
            (scrollBarSubControlRect (singleButtonStyle 16 10)
              (scenarioOption .LeftToRight 0 100 100 50) .SC_ScrollBarGroove)
          + majorLength (scenarioOption .LeftToRight 0 100 100 50)
            (scrollBarSubControlRect (singleButtonStyle 16 10)
              (scenarioOption .LeftToRight 0 100 100 50) .SC_ScrollBarGroove) :=
  ⟨by decide,
    (slider_at_range_ends (singleButtonStyle 16 10) (scenarioOption .LeftToRight 0 100 100 50)
      (Or.inl rfl) (by decide) (by decide)).2 (Or.inl ⟨rfl, rfl⟩)⟩

/-- After a sequence of `lock` and `release` calls on a fresh `TabBarData`, `isLocked(w)`
holds for a widget `w` exactly when the last call was `lock(w)`. -/
theorem tabBarData_isLocked_after (ops : List TabBarOp) (w : Widget) :
    (tabBarDataAfter ops).isLocked (some w) = true ↔ ops.getLast? = some (.lock (some w)) := by
  rcases List.eq_nil_or_concat ops with rfl | ⟨l, op, rfl⟩
  · simp [tabBarDataAfter, TabBarData.init, TabBarData.isLocked]
  · cases op with
    | lock x =>
      cases x <;>
        simp [tabBarDataAfter, List.foldl_append, TabBarOp.apply, TabBarData.lock,
          TabBarData.isLocked]
    | release =>
      simp [tabBarDataAfter, List.foldl_append, TabBarOp.apply, TabBarData.release,
        TabBarData.isLocked]

/-- Claim C27: in `drawTabBarTabShapeControl`, whenever `TabBarData::isLocked(widget)` holds
at entry, the rect and the corner set handed to the tab renderer do not depend on
`selectedPosition`: two runs that differ only in `selectedPosition` hand over the same rect
and corners (for unselected and selected tabs alike). After any sequence of `lock` and
`release` calls, `isLocked(w)` holds exactly when the last call was `lock(w)`. -/
theorem tabShape_locked_ignores_selectedPosition (m : Metrics) (tabOverlap : Nat)
    (tabBarData : TabBarData) (widget : Option Widget) (otherDevice : Bool)
    (option : QStyleOptionTab) (sp1 sp2 : SelectedPosition) (ops : List TabBarOp) (w : Widget)
    (hlocked : tabBarData.isLocked widget = true) :
    (drawTabBarTabShapeControl m tabOverlap tabBarData widget otherDevice
        { option with selectedPosition := sp1 }).2
      = (drawTabBarTabShapeControl m tabOverlap tabBarData widget otherDevice
        { option with selectedPosition := sp2 }).2
      ∧ ((tabBarDataAfter ops).isLocked (some w) = true
        ↔ ops.getLast? = some (.lock (some w))) := by
  refine ⟨?_, tabBarData_isLocked_after ops w⟩
  have hw : widget.isSome = true := by
    simp only [TabBarData.isLocked, Bool.and_eq_true, decide_eq_true_eq] at hlocked
    rw [← hlocked.2]; exact hlocked.1
  simp only [drawTabBarTabShapeControl, hlocked, hw, Bool.and_true, Bool.true_and, Bool.not_true,
    Bool.false_and, Bool.and_false, Bool.not_false]

/-- Witness for claim C27: with the bar of widget `7` locked, an unselected middle North tab
gets the same rect and corners for `NextIsSelected` and `PreviousIsSelected`; without the
lock the two differ. -/
theorem tabShape_locked_ignores_selectedPosition_witness :
    (tabBarDataAfter [.release, .lock (some 7)]).isLocked (some 7) = true
      ∧ (drawTabBarTabShapeControl scenarioMetrics 1 (tabBarDataAfter [.release, .lock (some 7)])
          (some 7) false
          ⟨QRect.ofXYWH 40 0 40 24, .LeftToRight, .RoundedNorth, .Middle, .NextIsSelected, false⟩).2
        = (drawTabBarTabShapeControl scenarioMetrics 1 (tabBarDataAfter [.release, .lock (some 7)])
          (some 7) false
          ⟨QRect.ofXYWH 40 0 40 24, .LeftToRight, .RoundedNorth, .Middle, .PreviousIsSelected,
            false⟩).2
      ∧ (drawTabBarTabShapeControl scenarioMetrics 1 TabBarData.init (some 7) false
          ⟨QRect.ofXYWH 40 0 40 24, .LeftToRight, .RoundedNorth, .Middle, .NextIsSelected, false⟩).2
        ≠ (drawTabBarTabShapeControl scenarioMetrics 1 TabBarData.init (some 7) false
          ⟨QRect.ofXYWH 40 0 40 24, .LeftToRight, .RoundedNorth, .Middle, .PreviousIsSelected,
            false⟩).2 :=
  ⟨by decide,
    (tabShape_locked_ignores_selectedPosition scenarioMetrics 1
      (tabBarDataAfter [.release, .lock (some 7)]) (some 7) false
      ⟨QRect.ofXYWH 40 0 40 24, .LeftToRight, .RoundedNorth, .Middle, .NotAdjacent, false⟩
      .NextIsSelected .PreviousIsSelected [] 7 (by decide)).1,
    by decide⟩

/-- Claim C29: for a content size `S` with non-negative width and height and both values of
the flat flag (`lineWidth = 0` or not), `lineEditContentsRect` applied to a rect whose size
is `lineEditSizeFromContents S` returns a rect of size exactly `S`. -/
theorem lineEdit_contents_inverse (m : Metrics) (option : QStyleOptionFrame) (contentsSize : QSize)
    (hw : 0 ≤ contentsSize.width) (hh : 0 ≤ contentsSize.height)
    (hrw : option.rect.width = (lineEditSizeFromContents m option contentsSize).width)
    (hrh : option.rect.height = (lineEditSizeFromContents m option contentsSize).height) :
    (lineEditContentsRect m option).width = contentsSize.width
      ∧ (lineEditContentsRect m option).height = contentsSize.height := by
  simp only [lineEditSizeFromContents, lineEditContentsRect] at hrw hrh ⊢
  by_cases hl : option.lineWidth = 0
  · simp only [hl, decide_True, if_true] at hrw hrh ⊢
    exact ⟨hrw, hrh⟩
  · simp only [hl, decide_False, Bool.false_eq_true, if_false, expandSize, insideMargin,
      QRect.ofXYWH, QRect.width, QRect.height, QRect.left, QRect.top] at hrw hrh ⊢
    constructor <;> omega

/-- Witness for claim C29: contents `(50, 10)` with margin `2 + 2` negotiate `(58, 18)`, and
the contents rect of a `58` by `18` line edit is `50` by `10`. -/
theorem lineEdit_contents_inverse_witness :
    (0 : Int) ≤ 50 ∧ (0 : Int) ≤ 10
      ∧ lineEditSizeFromContents scenarioMetrics ⟨QRect.ofXYWH 5 5 58 18, 1⟩ ⟨50, 10⟩ = ⟨58, 18⟩
      ∧ (lineEditContentsRect scenarioMetrics ⟨QRect.ofXYWH 5 5 58 18, 1⟩).width = 50
      ∧ (lineEditContentsRect scenarioMetrics ⟨QRect.ofXYWH 5 5 58 18, 1⟩).height = 10 :=
  ⟨by decide, by decide, by decide,
    lineEdit_contents_inverse scenarioMetrics ⟨QRect.ofXYWH 5 5 58 18, 1⟩ ⟨50, 10⟩
      (by decide) (by decide) (by decide) (by decide)⟩

/-- Claim C30: for a valid background colour with channels `R`, `G`, `B`,
`getBlackOrWhiteForegroundForHighContrast` returns black exactly when
`299 * R + 587 * G + 114 * B ≥ 126000` and white otherwise; for the invalid colour it
returns the invalid colour; the result does not depend on the alpha channel. -/
theorem blackOrWhite_threshold :
    getBlackOrWhiteForegroundForHighContrast .invalid = .invalid
      ∧ (∀ red green blue alpha : Nat,
          getBlackOrWhiteForegroundForHighContrast (.rgba red green blue alpha)
            = if 126000 ≤ 299 * red + 587 * green + 114 * blue then QColor.black
              else QColor.white)
      ∧ ∀ red green blue alpha1 alpha2 : Nat,
          getBlackOrWhiteForegroundForHighContrast (.rgba red green blue alpha1)
            = getBlackOrWhiteForegroundForHighContrast (.rgba red green blue alpha2) := by
  refine ⟨rfl, ?_, fun _ _ _ _ _ => rfl⟩
  intro red green blue alpha
  simp only [getBlackOrWhiteForegroundForHighContrast, qRoundDiv]
  have h1 : Int.tdiv ((red : Int) * 299 + (green : Int) * 587 + (blue : Int) * 114) 1000
      = ((red : Int) * 299 + (green : Int) * 587 + (blue : Int) * 114) / 1000 :=
    Int.tdiv_eq_ediv (by omega) (by omega)
  have h2 : Int.fdiv
      (2 * (((red : Int) * 299 + (green : Int) * 587 + (blue : Int) * 114) / 1000) + 1) (2 * 1)
      = (2 * (((red : Int) * 299 + (green : Int) * 587 + (blue : Int) * 114) / 1000) + 1)
        / (2 * 1) :=
    Int.fdiv_eq_ediv _ (by omega)
  simp only [h1, h2]
  by_cases h : 126000 ≤ 299 * red + 587 * green + 114 * blue
  · rw [if_pos h, if_pos (by omega)]
  · rw [if_neg h, if_neg (by omega)]

/-- On a vertical bar `handleRTL` leaves a rectangle as wide as the track where it is. -/
theorem handleRTL_vertical (option : QStyleOptionSlider) (r : QRect)
    (hv : option.horizontal = false) (h1 : r.x1 = option.rect.x1) (h2 : r.x2 = option.rect.x2) :
    handleRTL option r = r :=
  handleRTL_eq_self option r (Or.inr hv) (fun _ => ⟨h1, h2⟩)

/-- On a vertical bar the two end buttons are as wide as the track and are the ones of the
left-to-right bar. -/
theorem internal_vertical (st : Style) (option : QStyleOptionSlider)
    (hv : option.horizontal = false) (sc : SubControl) (hsc : sc = .SC_ScrollBarSubLine ∨ sc = .SC_ScrollBarAddLine) :
    scrollBarInternalSubControlRect st option sc
        = scrollBarInternalSubControlRect st { option with direction := .LeftToRight } sc
      ∧ (scrollBarInternalSubControlRect st option sc).x1 = option.rect.x1
      ∧ (scrollBarInternalSubControlRect st option sc).x2 = option.rect.x2 := by
  rcases hsc with rfl | rfl
  · simp only [scrollBarInternalSubControlRect, hv, Bool.false_eq_true, if_false]
    rw [handleRTL_vertical option _ hv (by simp only [QRect.ofXYWH, QRect.x])
      (by simp only [QRect.ofXYWH, QRect.x, QRect.width]; omega)]
    refine ⟨rfl, ?_, ?_⟩
    · simp only [QRect.ofXYWH, QRect.x]
    · simp only [QRect.ofXYWH, QRect.x, QRect.width]; omega
  · simp only [scrollBarInternalSubControlRect, hv, Bool.false_eq_true, if_false]
    rw [handleRTL_vertical option _ hv (by simp only [QRect.ofXYWH, QRect.x])
      (by simp only [QRect.ofXYWH, QRect.x, QRect.width]; omega)]
    refine ⟨rfl, ?_, ?_⟩
    · simp only [QRect.ofXYWH, QRect.x]
    · simp only [QRect.ofXYWH, QRect.x, QRect.width]; omega

/-- On a vertical bar the groove is the one of the left-to-right bar, and un-mirroring
leaves it where it is. -/
theorem groove_vertical (st : Style) (option : QStyleOptionSlider)
    (hv : option.horizontal = false) :
    scrollBarGrooveRect st option
        = scrollBarGrooveRect st { option with direction := .LeftToRight }
      ∧ scrollBarGrooveRect st option = handleRTL option (scrollBarGrooveRect st option) := by
  have h1 := groove_eq_unmirrored st option (Or.inr hv)
  have h2 := groove_unmirrored_direction st option .LeftToRight
  refine ⟨?_, h1.symm⟩
  rw [← h1, ← h2]
  rfl

/-- On a vertical bar the slider is as wide as the track and is the one of the
left-to-right bar. -/
theorem slider_vertical (st : Style) (option : QStyleOptionSlider)
    (hv : option.horizontal = false) :
    scrollBarSliderRect st option
        = scrollBarSliderRect st { option with direction := .LeftToRight }
      ∧ (scrollBarSliderRect st option).x1 = option.rect.x1
      ∧ (scrollBarSliderRect st option).x2 = option.rect.x2 := by
  have hg := groove_full_width st option hv
  have h2 := groove_unmirrored_direction st option .LeftToRight
  simp only [scrollBarSliderRect, h2]
  generalize handleRTL option (scrollBarGrooveRect st option) = LG at hg ⊢
  simp only [hv, Bool.false_eq_true, if_false]
  by_cases he : option.minimum = option.maximum
  · simp only [if_pos he]
    exact ⟨trivial, hg⟩
  · simp only [if_neg he]
    generalize min (max (Int.tdiv (LG.height * option.pageStep)
      (option.maximum - option.minimum + option.pageStep)) (st.minSliderHeight : Int)) LG.height
      = sz
    by_cases hfree : LG.height - sz ≤ 0
    · simp only [if_pos hfree]
      exact ⟨trivial, hg⟩
    · simp only [if_neg hfree]
      generalize (if option.upsideDown = true then
        LG.height - sz - qRoundDiv ((option.sliderPosition - option.minimum) * (LG.height - sz))
          (option.maximum - option.minimum)
        else qRoundDiv ((option.sliderPosition - option.minimum) * (LG.height - sz))
          (option.maximum - option.minimum)) = pos
      rw [handleRTL_vertical option _ hv
        (by simp only [QRect.ofXYWH, QRect.x]; omega)
        (by simp only [QRect.ofXYWH, QRect.x, QRect.width]; omega)]
      refine ⟨rfl, ?_, ?_⟩
      · simp only [QRect.ofXYWH, QRect.x]; omega
      · simp only [QRect.ofXYWH, QRect.x, QRect.width]; omega

/-- On a vertical bar every sub-control rect is as wide as the track and is the one of the
left-to-right bar. -/
theorem vertical_subControl (st : Style) (option : QStyleOptionSlider)
    (hv : option.horizontal = false) (sc : SubControl) :
    scrollBarSubControlRect st option sc
        = scrollBarSubControlRect st { option with direction := .LeftToRight } sc
      ∧ (scrollBarSubControlRect st option sc).x1 = option.rect.x1
      ∧ (scrollBarSubControlRect st option sc).x2 = option.rect.x2 := by
  have hg := groove_full_width st option hv
  have hgd := groove_unmirrored_direction st option .LeftToRight
  have hs := slider_vertical st option hv
  have hsl : handleRTL option (scrollBarSliderRect st option)
      = scrollBarSliderRect st { option with direction := .LeftToRight } := by
    rw [handleRTL_vertical option _ hv hs.2.1 hs.2.2]
    exact hs.1
  cases sc with
  | SC_ScrollBarSubLine => exact internal_vertical st option hv _ (Or.inl rfl)
  | SC_ScrollBarAddLine => exact internal_vertical st option hv _ (Or.inr rfl)
  | SC_ScrollBarGroove =>
    refine ⟨(groove_vertical st option hv).1, ?_, ?_⟩
    · show (scrollBarGrooveRect st option).x1 = _
      rw [(groove_vertical st option hv).2]; exact hg.1
    · show (scrollBarGrooveRect st option).x2 = _
      rw [(groove_vertical st option hv).2]; exact hg.2
  | SC_ScrollBarSlider => exact hs
  | SC_ScrollBarSubPage =>
    have hsl2 : handleRTL { option with direction := .LeftToRight }
        (scrollBarSliderRect st { option with direction := .LeftToRight })
        = scrollBarSliderRect st { option with direction := .LeftToRight } := rfl
    simp only [scrollBarSubControlRect, hgd, hsl, hsl2]
    generalize handleRTL option (scrollBarGrooveRect st option) = LG at hg ⊢
    generalize scrollBarSliderRect st { option with direction := .LeftToRight } = SL
    simp only [hv, Bool.false_eq_true, if_false]
    rw [handleRTL_vertical option _ hv
      (by simp only [QRect.ofXYWH, QRect.x]; omega)
      (by simp only [QRect.ofXYWH, QRect.x, QRect.width]; omega)]
    refine ⟨rfl, ?_, ?_⟩
    · simp only [QRect.ofXYWH, QRect.x]; omega
    · simp only [QRect.ofXYWH, QRect.x, QRect.width]; omega
  | SC_ScrollBarAddPage =>
    have hsl2 : handleRTL { option with direction := .LeftToRight }
        (scrollBarSliderRect st { option with direction := .LeftToRight })
        = scrollBarSliderRect st { option with direction := .LeftToRight } := rfl
    simp only [scrollBarSubControlRect, hgd, hsl, hsl2]
    generalize handleRTL option (scrollBarGrooveRect st option) = LG at hg ⊢
    generalize scrollBarSliderRect st { option with direction := .LeftToRight } = SL
    simp only [hv, Bool.false_eq_true, if_false]
    rw [handleRTL_vertical option _ hv
      (by simp only [QRect.ofXYWH, QRect.x]; omega)
      (by simp only [QRect.ofXYWH, QRect.x, QRect.width]; omega)]
    refine ⟨rfl, ?_, ?_⟩
    · simp only [QRect.ofXYWH, QRect.x]; omega
    · simp only [QRect.ofXYWH, QRect.x, QRect.width]; omega

/-- Claim C28: for a vertical scroll bar (any track rect, buttons and range state) and each
of the six sub-controls, `scrollBarSubControlRect` returns the same rect under `RightToLeft`
as under `LeftToRight`; under either direction the rect spans the full width of the track. -/
theorem vertical_scrollBar_ignores_direction (st : Style) (option : QStyleOptionSlider)
    (subControl : SubControl) (hv : option.horizontal = false) :
    scrollBarSubControlRect st { option with direction := .RightToLeft } subControl
        = scrollBarSubControlRect st { option with direction := .LeftToRight } subControl
      ∧ ∀ d : LayoutDirection,
          (scrollBarSubControlRect st { option with direction := d } subControl).x1
              = option.rect.x1
            ∧ (scrollBarSubControlRect st { option with direction := d } subControl).x2
              = option.rect.x2 :=
  ⟨(vertical_subControl st { option with direction := .RightToLeft } hv subControl).1,
    fun d => (vertical_subControl st { option with direction := d } hv subControl).2⟩

/-- Witness for claim C28: on the vertical track `(5, 0, 20, 200)` with range `[0, 100]`,
page step `20` and position `30`, the slider is `(5, 58, 20, 27)` under both directions. -/
theorem vertical_scrollBar_ignores_direction_witness :
    scrollBarSubControlRect (singleButtonStyle 16 10)
        ⟨QRect.ofXYWH 5 0 20 200, false, .RightToLeft, 0, 100, 30, 20, false⟩ .SC_ScrollBarSlider
      = QRect.ofXYWH 5 58 20 27
      ∧ scrollBarSubControlRect (singleButtonStyle 16 10)
        ⟨QRect.ofXYWH 5 0 20 200, false, .LeftToRight, 0, 100, 30, 20, false⟩ .SC_ScrollBarSlider
      = QRect.ofXYWH 5 58 20 27 := by
  have h := (vertical_scrollBar_ignores_direction (singleButtonStyle 16 10)
    ⟨QRect.ofXYWH 5 0 20 200, false, .LeftToRight, 0, 100, 30, 20, false⟩ .SC_ScrollBarSlider
    rfl).1
  exact ⟨h.trans (by decide), by decide⟩

end Breeze
